import Mathlib

/-
Verification development for the transcript-processing bot
(`transcriptor_processor`): a shallow embedding of the workflow
orchestrator, the transcript extractor, the Slack message-state
extractor, the decision-action handlers and the email-template
selection, together with proofs and refutations of the specified
properties.

External collaborators (the Slack SDK transport, SMTP delivery, the
OpenAI call, `json.loads`, the DealCloud SDK) are modelled at their
interface boundary: their outcomes are parameters of the embedded
functions.  Python strings are modelled as Lean `String`s and the
string builtins used by the source (`split`, `strip`, `lstrip`,
`replace`, `startswith`, `endswith`, substring test) are re-implemented
below by structural recursion on the character list so that all proofs
can be checked by evaluation inside the kernel.
-/

/-! ## Python string builtins, on character lists -/

/-- Substring test: Python `pat in hay` on character lists. -/
def containsSeq (pat : List Char) : List Char → Bool
  | [] => pat.isPrefixOf []
  | c :: rest => pat.isPrefixOf (c :: rest) || containsSeq pat rest

/-- Index of the first occurrence of `pat`, if any (leftmost match). -/
def subIdx (pat : List Char) : List Char → Option Nat
  | [] => if pat.isEmpty then some 0 else none
  | c :: rest => if pat.isPrefixOf (c :: rest) then some 0 else (subIdx pat rest).map (· + 1)

/-- Piece number 1 of Python `hay.split(pat)`: the text between the first
occurrence of `pat` and the following one (or the end).  The source only
evaluates `split(pat)[1]` after checking `pat in hay`, so the `none`
case (we return `[]`) is never reached on the modelled paths. -/
def splitAfter1 (pat : List Char) (l : List Char) : List Char :=
  match subIdx pat l with
  | none => []
  | some i =>
    let rest := l.drop (i + pat.length)
    match subIdx pat rest with
    | none => rest
    | some j => rest.take j

/-- Python `str.replace(pat, repl)` (all occurrences, left to right),
with a fuel argument to keep the recursion structural; the fuel is
instantiated with the length of the list, which bounds the number of
steps because `pat` is non-empty at every call site. -/
def replaceAux (pat repl : List Char) : Nat → List Char → List Char
  | _, [] => []
  | 0, l => l
  | fuel + 1, c :: rest =>
    if pat.isPrefixOf (c :: rest) && !pat.isEmpty then
      repl ++ replaceAux pat repl fuel (List.drop (pat.length - 1) rest)
    else c :: replaceAux pat repl fuel rest

/-- Python `str.strip()` (whitespace from both ends). -/
def stripList (l : List Char) : List Char :=
  ((l.dropWhile Char.isWhitespace).reverse.dropWhile Char.isWhitespace).reverse

/-- Python `str.split(c)` for a one-character separator (keeps empty pieces). -/
def splitOnChar (a : Char) : List Char → List (List Char)
  | [] => [[]]
  | c :: rest =>
    if c = a then [] :: splitOnChar a rest
    else
      match splitOnChar a rest with
      | [] => [[c]]
      | h :: t => (c :: h) :: t

/-! ## The same builtins, packaged on `String` -/

/-- Python `needle in hay`. -/
def pyIn (needle hay : String) : Bool := containsSeq needle.toList hay.toList

/-- Python `hay.split(needle)[1]`. -/
def pySplitAfter (hay needle : String) : String := ⟨splitAfter1 needle.toList hay.toList⟩

/-- Python `s.strip()`. -/
def pyStrip (s : String) : String := ⟨stripList s.toList⟩

/-- Python `s.replace(pat, repl)`. -/
def pyReplace (s pat repl : String) : String :=
  ⟨replaceAux pat.toList repl.toList s.toList.length s.toList⟩

/-- Python `s.lstrip(c)` for a single strip character. -/
def pyLstrip (a : Char) (s : String) : String := ⟨s.toList.dropWhile (· == a)⟩

/-- Python `s.startswith(p)`. -/
def pyStarts (s p : String) : Bool := p.toList.isPrefixOf s.toList

/-- Python `s.endswith(p)`. -/
def pyEnds (s p : String) : Bool := p.toList.reverse.isPrefixOf s.toList.reverse

/-- Python `s.split(c)` for a one-character separator. -/
def pySplitChar (a : Char) (s : String) : List String :=
  (splitOnChar a s.toList).map fun l => ⟨l⟩

/-- Separator-join on character lists (Python `"sep".join` semantics). -/
def joinSep (sep : List Char) : List (List Char) → List Char
  | [] => []
  | [x] => x
  | x :: y :: rest => x ++ sep ++ joinSep sep (y :: rest)

/-- Python `"sep".join(xs)`. -/
def pyJoin (sep : String) (xs : List String) : String :=
  ⟨joinSep sep.toList (xs.map String.toList)⟩

/-- Python `s[:n]` (first `n` characters). -/
def pyTake (n : Nat) (s : String) : String := ⟨s.toList.take n⟩

/-- Truthiness of a Python `Optional[str]`: `None` and `""` are falsy. -/
def pyTruthy : Option String → Bool
  | none => false
  | some s => s ≠ ""

/-! ## Core data model (`core/types.py`, `core/state.py`) -/

/-- `core/types.py` `DecisionType`: the four decision outcomes. -/
inductive DecisionType where
  | FUND_X       -- "fund_x": non-urgent fund decisions
  | FOLLOW_UP    -- "follow_up": urgent follow-ups
  | FUTURE_FUND  -- "future_fund": future fund opportunities
  | NO_ACTION    -- "no_action": opportunities being passed on
deriving Repr, DecidableEq

/-- The string value of a `DecisionType` member. -/
def DecisionType.value : DecisionType → String
  | .FUND_X => "fund_x"
  | .FOLLOW_UP => "follow_up"
  | .FUTURE_FUND => "future_fund"
  | .NO_ACTION => "no_action"

/-- `core/state.py` `CompanyInfo`.  The `industry` and `stage` enum members
are carried as their string values; `revenue` and `growth_rate` are kept as
integers (their display formatting is presentation-only and no specified
property depends on it). -/
structure CompanyInfo where
  name : String
  industry : Option String := none
  stage : Option String := none
  revenue : Option Int := none
  growth_rate : Option Int := none
  location : Option String := none
deriving Repr, DecidableEq

/-- `core/state.py` `Participant`. -/
structure Participant where
  name : String
  role : Option String := none
  company : Option String := none
  key_points : List String := []
deriving Repr, DecidableEq

/-- `core/state.py` `NextStep`.  `deadline` is carried pre-formatted as
`%Y-%m-%d`, the only way the source ever renders it. -/
structure NextStep where
  description : String
  owner : Option String := none
  deadline : Option String := none
deriving Repr, DecidableEq

/-- `core/state.py` `ProcessingState` (the fields the modelled workflow
reads or writes; the due-diligence fields are never touched on the
modelled paths).  `processed_at` and `decision_confidence` are carried
pre-formatted, as the footer renderer is the only consumer. -/
structure ProcessingState where
  transcript : String
  transcript_id : String
  summary : String := ""
  participants : List Participant := []
  company_info : Option CompanyInfo := none
  next_steps : List NextStep := []
  key_points : List String := []
  decision : Option DecisionType := none
  confidenceStr : String := "0.0%"
  processedAtStr : String := ""
  processing_duration : Nat := 0
deriving Repr, DecidableEq

/-! ## JSON values, for the defensively parsed model responses -/

/-- A JSON value as produced by `json.loads`; arrays and nested objects are
collapsed since the modelled code never looks inside them. -/
inductive Jval where
  | str (s : String)
  | num (n : Int)
  | boolean (b : Bool)
  | null
  | arr
  | obj
deriving Repr, DecidableEq

/-- A JSON object: an association list with the first binding winning,
like a Python dict read through `.get`. -/
def Jobj := List (String × Jval)

instance : DecidableEq Jobj := by unfold Jobj; infer_instance

/-- Python `d.get(k)`. -/
def jget (o : Jobj) (k : String) : Option Jval :=
  (o.find? (fun p => p.1 = k)).map (·.2)

/-! ## Transcript extractor (`agents/transcription.py`) -/

/-- The validated result of `TranscriptionAgent._extract_basic_info`: the
method returns only after checking that `summary` parsed as a string and
`key_points` parsed as a list; every other outcome raises
`AgentProcessingError` (modelled as the `Except.error` side of the
parameter feeding `process`). -/
structure BasicInfo where
  summary : String
  key_points : List String
deriving Repr, DecidableEq

namespace TranscriptionAgent

/-- `TranscriptionAgent._extract_company_info`, lines 129-192, downstream of
the `json.loads` boundary: `parsed` is the parse outcome of the cleaned
response (`none` when cleaning/parsing failed or any exception occurred,
in which case the method logged and returned `None`).  The method returns
the parsed object only when its `name` key holds a string. -/
def extract_company_info (parsed : Option Jobj) : Option Jobj :=
  match parsed with
  | none => none
  | some o =>
    match jget o "name" with
    | some (.str _) => some o
    | _ => none

/-- The allowed `IndustryType` enum values. -/
def industryValues : List String := ["ai", "saas", "fintech", "healthcare", "biotech", "other"]

/-- The allowed `CompanyStage` enum values. -/
def stageValues : List String := ["seed", "series_a", "series_b", "series_c", "growth"]

/-- Validation of one optional enum field under `CompanyInfo(**dict)`:
`none` is a validation error, `some none` an absent/null field. -/
def parseEnumField (allowed : List String) (v : Option Jval) : Option (Option String) :=
  match v with
  | none => some none
  | some .null => some none
  | some (.str s) => if s ∈ allowed then some (some s) else none
  | some _ => none

/-- Validation of an optional numeric field under `CompanyInfo(**dict)`. -/
def parseNumField (v : Option Jval) : Option (Option Int) :=
  match v with
  | none => some none
  | some .null => some none
  | some (.num n) => some (some n)
  | some _ => none

/-- Validation of an optional string field under `CompanyInfo(**dict)`. -/
def parseStrField (v : Option Jval) : Option (Option String) :=
  match v with
  | none => some none
  | some .null => some none
  | some (.str s) => some (some s)
  | some _ => none

/-- Pydantic construction `CompanyInfo(**company_info)` in
`TranscriptionAgent.process`; `none` models a raised `ValidationError`
(caught by the surrounding `except`, leaving the company unset). -/
def mkCompanyInfo (o : Jobj) : Option CompanyInfo :=
  match jget o "name" with
  | some (.str n) =>
    match parseEnumField industryValues (jget o "industry"),
          parseEnumField stageValues (jget o "stage"),
          parseNumField (jget o "revenue"),
          parseNumField (jget o "growth_rate"),
          parseStrField (jget o "location") with
    | some ind, some st, some rev, some gr, some loc =>
      some { name := n, industry := ind, stage := st, revenue := rev, growth_rate := gr, location := loc }
    | _, _, _, _, _ => none
  | _ => none

/-- `TranscriptionAgent.process`, lines 14-70.  The three generation-service
round trips are interface boundaries: `basic` is the outcome of
`_extract_basic_info` (its own `AgentProcessingError`s appear as
`Except.error`), `companyParsed` is the `json.loads` outcome inside
`_extract_company_info`, and `participantsResult` is the validated return
of `_extract_participants` (a list of participants each of which parsed
with a string `name`).  Python mutates `state` in place, so the error side
carries the state as mutated up to the raise. -/
def process (st : ProcessingState) (basic : Except String BasicInfo)
    (companyParsed : Option Jobj) (participantsResult : List Participant) :
    Except (String × ProcessingState) ProcessingState :=
  if st.transcript = "" || pyStrip st.transcript = "" then
    .error ("No transcript content provided", st)
  else
    match basic with
    | .error e => .error ("Failed to analyze transcript: " ++ e, st)
    | .ok b =>
      let st := { st with summary := b.summary, key_points := b.key_points }
      if pyStrip st.summary = "" || st.key_points = [] then
        .error ("Failed to analyze transcript: Failed to extract meaningful information from transcript", st)
      else
        let st :=
          match extract_company_info companyParsed with
          | some c =>
            -- `if company_info and company_info.get("name"):`
            if (match jget c "name" with | some (.str s) => s != "" | _ => false) then
              match mkCompanyInfo c with
              | some ci => { st with company_info := some ci }
              | none => st
            else st
          | none => st
        let st := if participantsResult ≠ [] then { st with participants := participantsResult } else st
        .ok st

end TranscriptionAgent

/-! ## Slack blocks -/

/-- A button element of an `actions` block.  `hasConfirm` records whether a
confirmation dialog is attached (its dialog texts are never read back by
the modelled code). -/
structure Button where
  text : String
  value : String
  action_id : String
  style : Option String := none
  disabled : Bool := false
  hasConfirm : Bool := false
deriving Repr, DecidableEq

/-- A Slack content block, as the modelled code builds and inspects them.
`sectionBlock` carries the `mrkdwn` text, `contextBlock` the texts of its
`mrkdwn` elements. -/
inductive Block where
  | header (text : String)
  | sectionBlock (text : String)
  | divider
  | contextBlock (texts : List String)
  | actions (elements : List Button)
deriving Repr, DecidableEq

/-- Whether a block is an `actions` block. -/
def Block.isActions : Block → Bool
  | .actions _ => true
  | _ => false

/-- Whether a block is a `divider`. -/
def Block.isDivider : Block → Bool
  | .divider => true
  | _ => false

/-! ## Message-state extractor (`agents/workflow.py`,
`AgentWorkflow._extract_state_from_blocks`, lines 122-180) -/

/-- The flat record scraped back out of a rendered notification. -/
structure StateData where
  company_name : String := ""
  summary : String := ""
  key_points : List String := []
  next_steps : List String := []
deriving Repr, DecidableEq

/-- The `current_section` marker of the scraper. -/
inductive ScrapeSection where
  | company
  | summaryS
  | key_pointsS
  | next_stepsS
deriving Repr, DecidableEq

namespace AgentWorkflow

/-- One iteration of the bullet-list scrape loop (lines 152-157): keep
the line if it starts with `•`, strip the bullet, and drop items that are
empty or carry leading/trailing markdown emphasis. -/
def scanBulletLine (acc : List String) (line : String) : List String :=
  let line := pyStrip line
  if line ≠ "" && pyStarts line "•" then
    let point := pyStrip (pyLstrip '•' line)
    if point ≠ "" && !pyStarts point "*" && !pyEnds point "*" then acc ++ [point] else acc
  else acc

/-- The bullet-list scrape used under the `*Key Points:*` and
`*Next Steps:*` labels (lines 150-158 and 162-171). -/
def parsePoints (points_text : String) : List String :=
  (pySplitChar '\n' points_text).foldl scanBulletLine []

/-- The continuation scrape for a section body reached while inside the
`key_points`/`next_steps` section (lines 173-178). -/
def parseContinuation (text : String) : List String :=
  let items := (pySplitChar '\n' text).map
    (fun item => pyStrip (pyLstrip '-' (pyLstrip '•' (pyStrip item))))
  items.filter (fun item => item ≠ "" && !pyStarts item "*" && !pyEnds item "*")

/-- One step of the block scan of `_extract_state_from_blocks`. -/
def extractStep (acc : StateData × Option ScrapeSection) (b : Block) :
    StateData × Option ScrapeSection :=
  match b with
  | .sectionBlock text =>
    let (sd, cur) := acc
    if pyIn "*Company:*" text then
      let company := pyStrip (pySplitAfter text "*Company:*")
      ({ sd with company_name := pyStrip (pyReplace (pyReplace company "*" "") "\n" " ") },
       some .company)
    else if pyIn "*Summary:*" text then
      let summary := pyStrip (pySplitAfter text "*Summary:*")
      ({ sd with summary := pyStrip (pyReplace summary "*" "") }, some .summaryS)
    else if pyIn "*Key Points:*" text then
      ({ sd with key_points := parsePoints (pyStrip (pySplitAfter text "*Key Points:*")) },
       some .key_pointsS)
    else if pyIn "*Next Steps:*" text then
      ({ sd with next_steps := parsePoints (pyStrip (pySplitAfter text "*Next Steps:*")) },
       some .next_stepsS)
    else
      match cur with
      | some .key_pointsS => ({ sd with key_points := sd.key_points ++ parseContinuation text }, cur)
      | some .next_stepsS => ({ sd with next_steps := sd.next_steps ++ parseContinuation text }, cur)
      | _ => (sd, cur)
  | _ => acc

/-- `AgentWorkflow._extract_state_from_blocks`. -/
def extract_state_from_blocks (blocks : List Block) : StateData :=
  (blocks.foldl extractStep ({}, none)).1

end AgentWorkflow

/-! ## Notification formatter (`integrations/slack/formatters.py`) -/

namespace SlackFormatter

/-- `SlackFormatter.format_header`. -/
def format_header (state : ProcessingState) : Block :=
  let emoji :=
    match state.decision with
    | some .FUND_X => "🎯"
    | some .FOLLOW_UP => "👀"
    | some .NO_ACTION => "⏩"
    | _ => "ℹ️"
  .header (emoji ++ " Conversation Analysis Results")

/-- `SlackFormatter.format_summary`. -/
def format_summary (state : ProcessingState) : Block :=
  .sectionBlock ("*Executive Summary*\n" ++ state.summary)

/-- `SlackFormatter.format_participants`. -/
def format_participants (participants : List Participant) : Block :=
  let participant_text := participants.foldl
    (fun t p =>
      let role_info := if pyTruthy p.role then " (" ++ p.role.getD "" ++ ")" else ""
      let company_info := if pyTruthy p.company then " from " ++ p.company.getD "" else ""
      t ++ "• " ++ p.name ++ role_info ++ company_info ++ "\n")
    ""
  .sectionBlock ("*Participants*\n" ++ participant_text)

/-- `SlackFormatter.format_next_steps` (the label carries no colon). -/
def format_next_steps (next_steps : List NextStep) : Block :=
  let steps_text := next_steps.foldl
    (fun t step =>
      let owner := if pyTruthy step.owner then " - Owner: " ++ step.owner.getD "" else ""
      let deadline := match step.deadline with
        | some d => " - Due: " ++ d
        | none => ""
      t ++ "• " ++ step.description ++ owner ++ deadline ++ "\n")
    ""
  .sectionBlock ("*Next Steps*\n" ++ steps_text)

/-- `SlackFormatter.format_company_info`.  Zero-valued `revenue`/
`growth_rate` are falsy in the source's `if`; the integer model keeps
that check. -/
def format_company_info (state : ProcessingState) : Option Block :=
  match state.company_info with
  | none => none
  | some info =>
    let t := "*Company:* " ++ info.name ++ "\n"
    let t := if pyTruthy info.industry then t ++ "*Industry:* " ++ info.industry.getD "" ++ "\n" else t
    let t := if pyTruthy info.stage then t ++ "*Stage:* " ++ info.stage.getD "" ++ "\n" else t
    let t := match info.revenue with
      | some r => if r ≠ 0 then t ++ "*Revenue:* $" ++ toString r ++ "\n" else t
      | none => t
    let t := match info.growth_rate with
      | some g => if g ≠ 0 then t ++ "*Growth Rate:* " ++ toString g ++ "%\n" else t
      | none => t
    some (.sectionBlock t)

/-- `SlackFormatter.format_footer`. -/
def format_footer (state : ProcessingState) : Block :=
  .contextBlock
    ["Decision: " ++ (match state.decision with | some d => d.value | none => "Pending") ++
     " | Confidence: " ++ state.confidenceStr ++
     " | Processed: " ++ state.processedAtStr]

/-- `SlackFormatter.format_disabled_button`. -/
def format_disabled_button (action_type text : String) (style : Option String := none) : Button :=
  { text := text, value := action_type, action_id := action_type ++ "_action",
    style := style, disabled := true, hasConfirm := false }

/-- The four enabled decision buttons of `format_processing_result`
(also used verbatim by the Krisp-message path in
`integrations/slack/handlers.py`, lines 218-300). -/
def enabledDecisionButtons : List Button :=
  [{ text := "Ja Urgent", value := "urgent", action_id := "urgent_action",
     style := some "primary", disabled := false, hasConfirm := true },
   { text := "Ja voor dit fonds maar niet urgent", value := "fund_not_urgent",
     action_id := "fund_not_urgent_action", disabled := false, hasConfirm := false },
   { text := "Ja voor later fonds", value := "future_fund",
     action_id := "future_fund_action", disabled := false, hasConfirm := false },
   { text := "Nee niet interessant", value := "not_interested",
     action_id := "not_interested_action", style := some "danger",
     disabled := false, hasConfirm := true }]

/-- The one-disabled-button label map of `format_processing_result`. -/
def selectedLabel (selected_action : String) : String :=
  match selected_action with
  | "urgent" => "Ja Urgent ✅"
  | "fund_not_urgent" => "Ja voor dit fonds maar niet urgent ✅"
  | "future_fund" => "Ja voor later fonds ✅"
  | "not_interested" => "Nee niet interessant ✅"
  | _ => "Unknown Action"

/-- The one-disabled-button style map of `format_processing_result`. -/
def selectedStyle (selected_action : String) : Option String :=
  match selected_action with
  | "urgent" => some "primary"
  | "not_interested" => some "danger"
  | _ => none

/-- `SlackFormatter.format_processing_result`. -/
def format_processing_result (state : ProcessingState)
    (selected_action : Option String := none) : List Block :=
  let blocks := [format_header state, format_summary state, .divider]
  let blocks := if state.participants ≠ [] then
      blocks ++ [format_participants state.participants, .divider]
    else blocks
  let blocks := match format_company_info state with
    | some cb => blocks ++ [cb, .divider]
    | none => blocks
  let blocks := if state.next_steps ≠ [] then
      blocks ++ [format_next_steps state.next_steps, .divider]
    else blocks
  let blocks := blocks ++ [format_footer state]
  blocks ++
    [.divider,
     .actions (match selected_action with
       | some sel => [format_disabled_button sel (selectedLabel sel) (selectedStyle sel)]
       | none => enabledDecisionButtons)]

end SlackFormatter

/-! ## Effects: the external writes the workflow performs -/

/-- An external write successfully performed through a collaborator: a
posted chat message, an in-place chat message update, a delivered email,
or a created CRM record.  A failed call performs no write and appears
only as the `Except.error` result of the function that attempted it. -/
inductive Effect where
  | postMessage (channel : String) (text : String) (blocks : List Block)
  | updateMessage (channel : String) (ts : String) (text : String) (blocks : List Block)
  | sendEmail (to_email : String) (subject : String) (body : String)
  | createDeal (subject : String) (notes : String)
deriving Repr, DecidableEq

/-- Whether an effect posts a new chat message. -/
def Effect.isPost : Effect → Bool
  | .postMessage _ _ _ => true
  | _ => false

/-- Whether an effect updates an existing chat message. -/
def Effect.isUpdate : Effect → Bool
  | .updateMessage _ _ _ _ => true
  | _ => false

/-- Whether an effect creates a CRM record. -/
def Effect.isDeal : Effect → Bool
  | .createDeal _ _ => true
  | _ => false

/-- Whether an effect delivers an email. -/
def Effect.isEmail : Effect → Bool
  | .sendEmail _ _ _ => true
  | _ => false

/-- The `blocks` payloads of the posted messages in an effect trace. -/
def postedBlocks (effs : List Effect) : List (List Block) :=
  effs.foldr (fun e acc => match e with | .postMessage _ _ bs => bs :: acc | _ => acc) []

/-- The update effects in an effect trace. -/
def updatesOf (effs : List Effect) : List Effect := effs.filter Effect.isUpdate

/-- The email effects in an effect trace. -/
def emailsOf (effs : List Effect) : List Effect := effs.filter Effect.isEmail

/-! ## Initial notification (`outputs/slack_output.py`, `SlackOutputHandler.send`) -/

/-- The three configured channels read by the output handler and the
interaction handler (`SlackConfig`). -/
structure SlackCfg where
  source_channel : String
  follow_up_channel : String
  fund_x_channel : String
  no_action_channel : String
deriving Repr, DecidableEq

namespace SlackOutputHandler

/-- `self.channel_map.get(state.decision, self.channel_map[FOLLOW_UP])`:
the map holds entries for `FUND_X`, `FOLLOW_UP` and `NO_ACTION` only, so
`FUTURE_FUND` and an unset decision fall back to the follow-up channel. -/
def channelFor (cfg : SlackCfg) (d : Option DecisionType) : String :=
  match d with
  | some .FUND_X => cfg.fund_x_channel
  | some .FOLLOW_UP => cfg.follow_up_channel
  | some .NO_ACTION => cfg.no_action_channel
  | _ => cfg.follow_up_channel

/-- The blocks built by `SlackOutputHandler.send`, lines 46-99: header,
summary, then key points / company / participants when present.  No
`actions` block is ever added here. -/
def sendBlocks (state : ProcessingState) : List Block :=
  let blocks := [Block.header "📝 Meeting Summary",
                 Block.sectionBlock ("*Summary:*\n" ++ state.summary)]
  let blocks := if state.key_points ≠ [] then
      blocks ++ [Block.sectionBlock ("*Key Points:*\n" ++
        pyJoin "\n" (state.key_points.map (fun point => "• " ++ point)))]
    else blocks
  let blocks := match state.company_info with
    | some info =>
      let company_text := "*Company:* " ++ info.name ++ "\n"
      let company_text := if pyTruthy info.industry then
          company_text ++ "*Industry:* " ++ info.industry.getD "" ++ "\n" else company_text
      let company_text := if pyTruthy info.stage then
          company_text ++ "*Stage:* " ++ info.stage.getD "" ++ "\n" else company_text
      blocks ++ [Block.sectionBlock company_text]
    | none => blocks
  let blocks := if state.participants ≠ [] then
      blocks ++ [Block.sectionBlock ("*Participants:*\n" ++
        pyJoin "\n" (state.participants.map (fun p =>
          "• " ++ p.name ++ (if pyTruthy p.role then " (" ++ p.role.getD "" ++ ")" else ""))))]
    else blocks
  blocks

/-- The message cache: `transcript_id ↦ (channel, ts)`, newest first. -/
def Cache := List (String × String × String)

/-- `SlackOutputHandler.send`.  `postResult` is the chat-platform boundary:
`some ts` when `chat_postMessage` succeeded with that message timestamp,
`none` when it raised (the `except` logs and returns `False`, so nothing
was written and the cache is untouched). -/
def send (cfg : SlackCfg) (cache : Cache) (state : ProcessingState)
    (postResult : Option String) : List Effect × Cache × Bool :=
  let blocks := sendBlocks state
  let channel := channelFor cfg state.decision
  match postResult with
  | some ts =>
    ([.postMessage channel (pyTake 100 state.summary ++ "...") blocks],
     (state.transcript_id, channel, ts) :: cache, true)
  | none => ([], cache, false)

end SlackOutputHandler

/-! ## Workflow orchestrator (`agents/workflow.py`, `process_transcript`) -/

namespace AgentWorkflow

/-- `AgentWorkflow.process_transcript`, lines 90-120: build the state, run
the transcription agent, stamp the duration, send to Slack, return the
state.  An extraction error propagates (the caller in `main.py` posts the
visible error notification); a Slack post failure is swallowed inside
`send`. -/
def process_transcript (cfg : SlackCfg) (cache : SlackOutputHandler.Cache)
    (transcript transcript_id : String) (duration : Nat)
    (basic : Except String BasicInfo) (companyParsed : Option Jobj)
    (participantsResult : List Participant) (postResult : Option String) :
    List Effect × SlackOutputHandler.Cache × Except String ProcessingState :=
  let state : ProcessingState := { transcript := transcript, transcript_id := transcript_id }
  match TranscriptionAgent.process state basic companyParsed participantsResult with
  | .error (e, _) => ([], cache, .error e)
  | .ok st =>
    let st := { st with processing_duration := duration }
    let (effs, cache', _) := SlackOutputHandler.send cfg cache st postResult
    (effs, cache', .ok st)

end AgentWorkflow

/-! ## Email templates (`integrations/email/client.py`, `EmailTemplate`) -/

namespace EmailTemplate

/-- The fixed test recipient. -/
def TEST_EMAIL : String := "yvoderooij@gmail.com"

/-- The documented but currently-unused production recipient. -/
def PROD_EMAIL : String := "Jaap@marktlinkcapital.com"

/-- Identifier of one of the four static template methods. -/
inductive Tag where
  | urgent_follow_up
  | fund_not_urgent
  | future_fund
  | no_action
deriving Repr, DecidableEq

/-- `<li>` items of a bullet list. -/
def liItems (xs : List String) : String :=
  String.join (xs.map (fun point => "<li>" ++ point ++ "</li>"))

/-- `EmailTemplate.urgent_follow_up`.  The templates are f-strings whose
inter-tag indentation whitespace is condensed to single newlines here;
no modelled property reads the whitespace. -/
def urgent_follow_up (company_name summary : String)
    (key_points next_steps : List String) : String :=
  "<h2>Urgent Follow-Up Required: " ++ company_name ++ "</h2>\n" ++
  "<h3>Meeting Summary</h3>\n<p>" ++ summary ++ "</p>\n" ++
  "<h3>Key Points</h3>\n<ul>\n" ++ liItems key_points ++ "\n</ul>\n" ++
  "<h3>Next Steps</h3>\n<ul>\n" ++ liItems next_steps ++ "\n</ul>\n" ++
  "<p><strong>Please review and take action as soon as possible.</strong></p>"

/-- `EmailTemplate.fund_not_urgent`. -/
def fund_not_urgent (company_name summary : String)
    (key_points next_steps : List String) : String :=
  "<h2>Fund Follow-Up: " ++ company_name ++ "</h2>\n" ++
  "<h3>Meeting Summary</h3>\n<p>" ++ summary ++ "</p>\n" ++
  "<h3>Key Points</h3>\n<ul>\n" ++ liItems key_points ++ "\n</ul>\n" ++
  "<h3>Suggested Next Steps</h3>\n<ul>\n" ++ liItems next_steps ++ "\n</ul>"

/-- `EmailTemplate.future_fund`. -/
def future_fund (company_name summary : String)
    (key_points next_steps : List String) : String :=
  "<h2>Future Fund Opportunity: " ++ company_name ++ "</h2>\n" ++
  "<h3>Meeting Summary</h3>\n<p>" ++ summary ++ "</p>\n" ++
  "<h3>Key Points</h3>\n<ul>\n" ++ liItems key_points ++ "\n</ul>\n" ++
  "<h3>Follow-Up Plan</h3>\n<ul>\n" ++ liItems next_steps ++ "\n</ul>\n" ++
  "<p>This opportunity has been noted for future fund consideration.</p>"

/-- `EmailTemplate.no_action`. -/
def no_action (company_name summary : String)
    (key_points : List String) (reasoning : String) : String :=
  "<h2>Investment Opportunity Review: " ++ company_name ++ "</h2>\n" ++
  "<h3>Meeting Summary</h3>\n<p>" ++ summary ++ "</p>\n" ++
  "<h3>Key Points</h3>\n<ul>\n" ++ liItems key_points ++ "\n</ul>\n" ++
  "<h3>Assessment</h3>\n<p>" ++ reasoning ++ "</p>\n" ++
  "<p>Based on our current investment criteria and strategy, we will not be pursuing this opportunity further at this time.</p>"

/-- `EmailTemplate.get_template_for_decision`: the static dict lookup,
`None` for anything outside the four members (unreachable, the enum is
closed). -/
def get_template_for_decision (decision_type : DecisionType) : Option Tag :=
  match decision_type with
  | .FUND_X => some .fund_not_urgent
  | .FOLLOW_UP => some .urgent_follow_up
  | .FUTURE_FUND => some .future_fund
  | .NO_ACTION => some .no_action

end EmailTemplate

/-! ## Decision action handlers (`agents/workflow.py`, lines 182-636) -/

/-- The slice of an inbound `block_actions` payload the handlers read:
`payload["channel"]["id"]`, `payload["message"]["ts"]`, and the snapshot
`payload["message"]["blocks"]`. -/
structure ActionPayload where
  channel : String
  ts : String
  blocks : List Block
deriving Repr, DecidableEq

/-- The collaborator outcomes a handler run can encounter.
`emailConfigured` is whether an email client is available (pre-existing
or initializable from `config.email`); `emailOk` whether
`send_email` delivers (it raises its last error after three provider
retries otherwise); `updateOk` whether `chat_update` succeeds;
`dealcloudConfigured` whether the DealCloud client initialized;
`dealOk` whether `create_deal` succeeds. -/
structure HandlerEnv where
  emailConfigured : Bool
  emailOk : Bool
  updateOk : Bool
  dealcloudConfigured : Bool
  dealOk : Bool
deriving Repr, DecidableEq

namespace AgentWorkflow

/-- The reasoning text hard-coded in `_handle_not_interested_action`. -/
def notInterestedReasoning : String :=
  "Based on our current investment criteria and strategy, this opportunity does not align with our focus areas at this time."

/-- The block filter every handler applies before re-rendering:
`[b for b in blocks if b["type"] != "actions" and b["type"] != "divider"]`. -/
def filteredForUpdate (blocks : List Block) : List Block :=
  blocks.filter (fun b => !b.isActions && !b.isDivider)

/-- The decision section each handler appends, with the email confirmation
line exactly when `self.email_client` is set. -/
def decisionSection (label : String) (emailConfigured : Bool) : Block :=
  .sectionBlock ("✅ *Decision: " ++ label ++ "*" ++
    (if emailConfigured then "\nTest email sent to " ++ EmailTemplate.TEST_EMAIL else ""))

/-- The completion-indicator button each handler appends.  Only the urgent
handler gives it a `primary` style and a confirmation dialog; none of the
handlers sets `disabled` on it. -/
def processedButton (primaryWithConfirm : Bool) : Block :=
  .actions [{ text := "✅ Processed", value := "processed", action_id := "processed_action",
              style := if primaryWithConfirm then some "primary" else none,
              disabled := false, hasConfirm := primaryWithConfirm }]

/-- `company_name.replace('*', '').replace('\n', ' ').strip()`, the
subject-line cleanup every handler performs. -/
def cleanCompanyName (company_name : String) : String :=
  pyStrip (pyReplace (pyReplace company_name "*" "") "\n" " ")

/-- The key-points/next-steps notes body shared by the urgent,
fund-not-urgent and future-fund DealCloud payloads. -/
def notesBody (decisionLine : String) (sd : StateData) : String :=
  "Decision: " ++ decisionLine ++ "\n\n" ++
  "Summary:\n" ++ sd.summary ++ "\n\n" ++
  "Key Points:\n" ++ pyJoin "\n" (sd.key_points.map (fun point => "- " ++ point)) ++ "\n\n" ++
  "Next Steps:\n" ++ pyJoin "\n" (sd.next_steps.map (fun step => "- " ++ step))

/-- `AgentWorkflow._handle_urgent_action`, lines 182-316.  The body sits in
one `try` whose `except` logs and re-raises, so the first failing call
aborts the rest of the handler. -/
def handle_urgent_action (env : HandlerEnv) (payload : ActionPayload) :
    List Effect × Except String Unit :=
  let state_data := extract_state_from_blocks payload.blocks
  let email_body := EmailTemplate.urgent_follow_up state_data.company_name state_data.summary
    state_data.key_points state_data.next_steps
  if env.emailConfigured && !env.emailOk then
    ([], .error "email send failed")
  else
    let emailEffects := if env.emailConfigured then
        [Effect.sendEmail EmailTemplate.TEST_EMAIL
          ("[TEST] Urgent Follow-Up: " ++ cleanCompanyName state_data.company_name) email_body]
      else []
    let newBlocks := filteredForUpdate payload.blocks ++
      [decisionSection "Urgent Action" env.emailConfigured, .divider, processedButton true]
    if !env.updateOk then
      (emailEffects, .error "message update failed")
    else
      let effects := emailEffects ++
        [Effect.updateMessage payload.channel payload.ts "Decision made: Urgent Action" newBlocks]
      if env.dealcloudConfigured then
        if env.dealOk then
          (effects ++ [Effect.createDeal ("Urgent Follow-Up: " ++ state_data.company_name)
            (notesBody "Urgent Follow-Up" state_data)], .ok ())
        else (effects, .error "deal creation failed")
      else (effects, .ok ())

/-- `AgentWorkflow._handle_fund_not_urgent_action`, lines 318-423. -/
def handle_fund_not_urgent_action (env : HandlerEnv) (payload : ActionPayload) :
    List Effect × Except String Unit :=
  let state_data := extract_state_from_blocks payload.blocks
  let email_body := EmailTemplate.fund_not_urgent state_data.company_name state_data.summary
    state_data.key_points state_data.next_steps
  if env.emailConfigured && !env.emailOk then
    ([], .error "email send failed")
  else
    let emailEffects := if env.emailConfigured then
        [Effect.sendEmail EmailTemplate.TEST_EMAIL
          ("[TEST] Fund Follow-Up: " ++ cleanCompanyName state_data.company_name) email_body]
      else []
    let newBlocks := filteredForUpdate payload.blocks ++
      [decisionSection "Fund (Not Urgent)" env.emailConfigured, .divider, processedButton false]
    if !env.updateOk then
      (emailEffects, .error "message update failed")
    else
      let effects := emailEffects ++
        [Effect.updateMessage payload.channel payload.ts "Decision made: Fund (Not Urgent)" newBlocks]
      if env.dealcloudConfigured then
        if env.dealOk then
          (effects ++ [Effect.createDeal ("Fund Follow-Up: " ++ state_data.company_name)
            (notesBody "Fund (Not Urgent)" state_data)], .ok ())
        else (effects, .error "deal creation failed")
      else (effects, .ok ())

/-- `AgentWorkflow._handle_future_fund_action`, lines 425-529. -/
def handle_future_fund_action (env : HandlerEnv) (payload : ActionPayload) :
    List Effect × Except String Unit :=
  let state_data := extract_state_from_blocks payload.blocks
  let email_body := EmailTemplate.future_fund state_data.company_name state_data.summary
    state_data.key_points state_data.next_steps
  if env.emailConfigured && !env.emailOk then
    ([], .error "email send failed")
  else
    let emailEffects := if env.emailConfigured then
        [Effect.sendEmail EmailTemplate.TEST_EMAIL
          ("[TEST] Future Fund Opportunity: " ++ cleanCompanyName state_data.company_name) email_body]
      else []
    let newBlocks := filteredForUpdate payload.blocks ++
      [decisionSection "Future Fund" env.emailConfigured, .divider, processedButton false]
    if !env.updateOk then
      (emailEffects, .error "message update failed")
    else
      let effects := emailEffects ++
        [Effect.updateMessage payload.channel payload.ts "Decision made: Future Fund" newBlocks]
      if env.dealcloudConfigured then
        if env.dealOk then
          (effects ++ [Effect.createDeal ("Future Fund: " ++ state_data.company_name)
            (notesBody "Future Fund" state_data)], .ok ())
        else (effects, .error "deal creation failed")
      else (effects, .ok ())

/-- `AgentWorkflow._handle_not_interested_action`, lines 531-636.  Its
DealCloud notes replace the next-steps paragraph by the fixed reason. -/
def handle_not_interested_action (env : HandlerEnv) (payload : ActionPayload) :
    List Effect × Except String Unit :=
  let state_data := extract_state_from_blocks payload.blocks
  let email_body := EmailTemplate.no_action state_data.company_name state_data.summary
    state_data.key_points notInterestedReasoning
  if env.emailConfigured && !env.emailOk then
    ([], .error "email send failed")
  else
    let emailEffects := if env.emailConfigured then
        [Effect.sendEmail EmailTemplate.TEST_EMAIL
          ("[TEST] Investment Review: " ++ cleanCompanyName state_data.company_name) email_body]
      else []
    let newBlocks := filteredForUpdate payload.blocks ++
      [decisionSection "Not Interested" env.emailConfigured, .divider, processedButton false]
    if !env.updateOk then
      (emailEffects, .error "message update failed")
    else
      let effects := emailEffects ++
        [Effect.updateMessage payload.channel payload.ts "Decision made: Not Interested" newBlocks]
      if env.dealcloudConfigured then
        if env.dealOk then
          (effects ++ [Effect.createDeal ("Not Interested: " ++ state_data.company_name)
            ("Decision: Not Interested\n\n" ++
             "Summary:\n" ++ state_data.summary ++ "\n\n" ++
             "Key Points:\n" ++ pyJoin "\n" (state_data.key_points.map (fun point => "- " ++ point)) ++ "\n\n" ++
             "Reason: " ++ notInterestedReasoning)], .ok ())
        else (effects, .error "deal creation failed")
      else (effects, .ok ())

end AgentWorkflow

/-- The four action identifiers registered in `AgentWorkflow.initialize`,
lines 61-76. -/
inductive ActionId where
  | urgent_action
  | fund_not_urgent_action
  | future_fund_action
  | not_interested_action
deriving Repr, DecidableEq

/-- The handler registered for each action identifier
(`AgentWorkflow.initialize` + `SlackInteractionHandler` dispatch). -/
def registeredHandler (a : ActionId) :
    HandlerEnv → ActionPayload → List Effect × Except String Unit :=
  match a with
  | .urgent_action => AgentWorkflow.handle_urgent_action
  | .fund_not_urgent_action => AgentWorkflow.handle_fund_not_urgent_action
  | .future_fund_action => AgentWorkflow.handle_future_fund_action
  | .not_interested_action => AgentWorkflow.handle_not_interested_action

/-- The `DecisionType` constant each handler passes to
`EmailTemplate.get_template_for_decision` (lines 208, 330, 437, 543). -/
def handlerDecision (a : ActionId) : DecisionType :=
  match a with
  | .urgent_action => .FOLLOW_UP
  | .fund_not_urgent_action => .FUND_X
  | .future_fund_action => .FUTURE_FUND
  | .not_interested_action => .NO_ACTION

/-! ## Interaction handler, source-channel message path
(`integrations/slack/handlers.py`, `SlackInteractionHandler.handle_interaction`) -/

/-- The slice of an inbound source-channel message event the handler reads,
with the collaborator boundaries as outcome flags.  `ts` is the message
timestamp used as the dedup key; `isKrispNotesMessage` is the line-138
guard (`bot_profile.name == 'Krisp'` and `'View meeting notes' in text`);
`notes_link` is the extracted Krisp link, if any; `meeting_notes` is the
headless-browser fetch outcome (summary and action items) and `postOk`
whether `chat_postMessage` to the follow-up channel succeeded. -/
structure MessageEvent where
  ts : String
  isKrispNotesMessage : Bool
  notes_link : Option String
  company : String
  participantsText : String
  meeting_notes : Option (String × List String)
  processedAtStr : String
  postOk : Bool
deriving Repr, DecidableEq

namespace SlackInteractionHandler

/-- The analysis blocks built in `handle_interaction`, lines 155-301:
header, executive summary, company details, optional next steps, the
transcript link, and the four enabled decision buttons. -/
def followupBlocks (e : MessageEvent) (summary : String) (action_items : List String)
    (link : String) : List Block :=
  let blocks := [Block.header ":information_source: Meeting Analysis Required",
                 Block.sectionBlock ("*Executive Summary*\n" ++ summary),
                 Block.sectionBlock ("*Company Details*\n" ++
                   "• Company: " ++ e.company ++ "\n" ++
                   "• Participants: " ++ e.participantsText)]
  let blocks := if action_items ≠ [] then
      blocks ++ [Block.sectionBlock ("*Proposed Next Steps*\n" ++
        pyJoin "\n" (action_items.map (fun item => "• " ++ item)))]
    else blocks
  blocks ++
    [Block.sectionBlock ("<" ++ link ++ "|View Full Transcript>"),
     Block.divider,
     Block.contextBlock ["Decision: Pending | Processed: " ++ e.processedAtStr],
     Block.divider,
     Block.actions SlackFormatter.enabledDecisionButtons]

/-- One run of the source-channel message path of
`SlackInteractionHandler.handle_interaction` (lines 112-318) against the
processed-messages set: returns the new set and the performed writes.
The timestamp joins the set only on the line-312 `add`, which is reached
only after `chat_postMessage` returned; every failure (`no link`, fetch
returned nothing, post raised — caught by the line-315 `except`) leaves
the set unchanged. -/
def handle_message_event (cfg : SlackCfg) (processed : List String) (e : MessageEvent) :
    List String × List Effect :=
  if processed.contains e.ts then
    (processed, [])
  else if e.isKrispNotesMessage then
    match e.notes_link with
    | some link =>
      match e.meeting_notes with
      | some (summary, action_items) =>
        if e.postOk then
          (e.ts :: processed,
           [.postMessage cfg.follow_up_channel "New meeting analysis required"
              (followupBlocks e summary action_items link)])
        else (processed, [])
      | none => (processed, [])
    | none => (processed, [])
  else (processed, [])

/-- Fold `handle_message_event` over a sequence of delivered events
(the single-threaded event-loop view: one handler run completes before
the next event is taken). -/
def runEvents (cfg : SlackCfg) (processed : List String) :
    List MessageEvent → List String × List Effect
  | [] => (processed, [])
  | e :: rest =>
    let (p', effs) := handle_message_event cfg processed e
    let (p'', effs') := runEvents cfg p' rest
    (p'', effs ++ effs')

/-- Whether handling `e` against `processed` posts the analysis message. -/
def didPost (cfg : SlackCfg) (processed : List String) (e : MessageEvent) : Bool :=
  !(handle_message_event cfg processed e).2.isEmpty

/-- How many of the events, delivered in order, post an analysis message
carrying timestamp `t`. -/
def postedCount (cfg : SlackCfg) (processed : List String) (t : String) :
    List MessageEvent → Nat
  | [] => 0
  | e :: rest =>
    (if e.ts = t ∧ didPost cfg processed e then 1 else 0) +
      postedCount cfg (handle_message_event cfg processed e).1 t rest

end SlackInteractionHandler

/-! ## Concrete fixtures used by witnesses and counterexamples -/

/-- A concrete channel configuration. -/
def cfg0 : SlackCfg :=
  { source_channel := "C0SRC", follow_up_channel := "C0FUP",
    fund_x_channel := "C0FX", no_action_channel := "C0NA" }

/-- A concrete rendered-notification snapshot carried by a button click:
summary and key-points sections, a divider and the enabled action
controls. -/
def samplePayload : ActionPayload :=
  { channel := "C0FUP", ts := "1700000000.000100",
    blocks := [Block.header ":information_source: Meeting Analysis Required",
               Block.sectionBlock "*Summary:*\nAcme call went well",
               Block.sectionBlock "*Key Points:*\n• point one\n• point two",
               Block.divider,
               Block.actions SlackFormatter.enabledDecisionButtons] }

/-- Environment: email configured but delivery failing, everything else
healthy. -/
def envEmailFail : HandlerEnv :=
  { emailConfigured := true, emailOk := false, updateOk := true,
    dealcloudConfigured := true, dealOk := true }

/-- Environment: all collaborators healthy. -/
def envAllOk : HandlerEnv :=
  { emailConfigured := true, emailOk := true, updateOk := true,
    dealcloudConfigured := true, dealOk := true }

/-- Environment: no email client, no DealCloud, Slack healthy. -/
def envSlackOnly : HandlerEnv :=
  { emailConfigured := false, emailOk := true, updateOk := true,
    dealcloudConfigured := false, dealOk := true }

/-- A concrete successful basic-info extraction. -/
def sampleBasic : BasicInfo :=
  { summary := "Acme raised a seed round", key_points := ["Revenue grew", "New product", "APAC expansion"] }

/-- A concrete state whose transcript is whitespace only. -/
def blankState : ProcessingState :=
  { transcript := "   ", transcript_id := "2025-01-01T00:00:00" }

/-- A concrete state with a non-blank transcript. -/
def freshState : ProcessingState :=
  { transcript := "We met Acme.", transcript_id := "2025-01-02T00:00:00" }

/-! ## C9 -/

/-- C9: for every processing state whose transcript is empty or
whitespace-only, `TranscriptionAgent.process` raises
`AgentProcessingError` with the state untouched, and the result does not
depend on any generation-service outcome (the raise happens before any
call): the conclusion holds for arbitrary `basic`, `companyParsed` and
`participantsResult`. -/
theorem C9_blank_transcript_rejected (st : ProcessingState)
    (basic : Except String BasicInfo) (companyParsed : Option Jobj)
    (participantsResult : List Participant)
    (h : pyStrip st.transcript = "") :
    TranscriptionAgent.process st basic companyParsed participantsResult =
      .error ("No transcript content provided", st) := by
  unfold TranscriptionAgent.process
  simp [h]

/-- Witness for C9 at a whitespace-only transcript. -/
theorem C9_witness :
    TranscriptionAgent.process blankState (.ok sampleBasic) none [] =
      .error ("No transcript content provided", blankState) :=
  C9_blank_transcript_rejected blankState (.ok sampleBasic) none [] (by decide)

/-! ## C5 -/

/-- C5: whenever the mandatory basic-info step yields a blank summary or an
empty key-points list, `TranscriptionAgent.process` raises the typed
processing error and returns no record, whatever the optional company and
participant outcomes would have been. -/
theorem C5_blank_summary_or_empty_key_points_fails (st : ProcessingState)
    (b : BasicInfo) (companyParsed : Option Jobj) (participantsResult : List Participant)
    (h : pyStrip b.summary = "" ∨ b.key_points = []) :
    ∃ msg st', TranscriptionAgent.process st (.ok b) companyParsed participantsResult =
      .error (msg, st') := by
  unfold TranscriptionAgent.process
  by_cases htr : (st.transcript = "" || pyStrip st.transcript = "") = true
  · rw [if_pos htr]
    exact ⟨_, _, rfl⟩
  · rw [if_neg htr]
    have hcond : (pyStrip b.summary = "" || b.key_points = []) = true := by
      rcases h with h | h <;> simp [h]
    simp only [hcond]
    exact ⟨_, _, rfl⟩

/-- Witness for C5: an empty key-points list, with company and participant
data that would have succeeded. -/
theorem C5_witness :
    ∃ msg st', TranscriptionAgent.process freshState
      (.ok { summary := "Good call", key_points := [] })
      (some [("name", Jval.str "Acme")]) [{ name := "John Smith" }] = .error (msg, st') :=
  C5_blank_summary_or_empty_key_points_fails freshState
    { summary := "Good call", key_points := [] }
    (some [("name", Jval.str "Acme")]) [{ name := "John Smith" }] (Or.inr rfl)

/-! ## C8 -/

/-- Whether a company-extraction parse outcome has a string `name` field. -/
def hasStringName (parsed : Option Jobj) : Bool :=
  match parsed with
  | none => false
  | some o =>
    match jget o "name" with
    | some (.str _) => true
    | _ => false

/-- The company step returns `None` whenever parsing failed or the parsed
object has no string `name`. -/
theorem extract_company_info_eq_none (parsed : Option Jobj)
    (h : hasStringName parsed = false) :
    TranscriptionAgent.extract_company_info parsed = none := by
  unfold hasStringName at h
  unfold TranscriptionAgent.extract_company_info
  cases parsed with
  | none => rfl
  | some o =>
    cases hj : jget o "name" with
    | none => simp [hj]
    | some v => cases v <;> simp_all [hj]

/-- C8: when the company-extraction response fails to parse or parses to an
object without a string `name`, extraction completes normally with the
record's company unset, and no error propagates from the company step. -/
theorem C8_no_name_leaves_company_unset (st : ProcessingState) (b : BasicInfo)
    (parsed : Option Jobj) (participantsResult : List Participant)
    (htr : pyStrip st.transcript ≠ "")
    (hs : pyStrip b.summary ≠ "") (hk : b.key_points ≠ [])
    (hco : st.company_info = none)
    (hname : hasStringName parsed = false) :
    ∃ st', TranscriptionAgent.process st (.ok b) parsed participantsResult = .ok st' ∧
      st'.company_info = none := by
  have htr' : st.transcript ≠ "" := by
    intro h
    exact htr (by rw [h]; rfl)
  unfold TranscriptionAgent.process
  rw [if_neg (by simp [htr, htr'])]
  simp only [extract_company_info_eq_none parsed hname]
  rw [if_neg (by simp [hs, hk])]
  by_cases hp : participantsResult = [] <;> simp [hp, hco]

/-- Witness for C8: a parse outcome whose `name` field is numeric. -/
theorem C8_witness :
    ∃ st', TranscriptionAgent.process freshState (.ok sampleBasic)
      (some [("name", Jval.num 7)]) [] = .ok st' ∧ st'.company_info = none :=
  C8_no_name_leaves_company_unset freshState sampleBasic (some [("name", Jval.num 7)]) []
    (by decide) (by decide) (by decide) rfl (by decide)

/-! ## C1 -/

/-- C1 counterexample: at a concrete decision event with an email client
configured and the send failing after its provider retries, the urgent
handler performs no external write at all — neither the message
re-render nor the CRM creation runs — and the error propagates, against
the claim that both still execute. -/
theorem C1_counterexample :
    AgentWorkflow.handle_urgent_action envEmailFail samplePayload =
      ([], .error "email send failed") := by
  rfl

/-- C1 amended: for every decision action event handled with an email
client configured, if the email send fails (raises after its internal
retries) the handler logs and re-raises: it performs no external write,
so the notification re-render and the CRM interaction creation do not
execute for that event. -/
theorem C1_email_failure_aborts_handler (a : ActionId) (env : HandlerEnv)
    (p : ActionPayload) (hconf : env.emailConfigured = true)
    (hfail : env.emailOk = false) :
    registeredHandler a env p = ([], .error "email send failed") := by
  cases a <;>
    simp [registeredHandler, AgentWorkflow.handle_urgent_action,
      AgentWorkflow.handle_fund_not_urgent_action,
      AgentWorkflow.handle_future_fund_action,
      AgentWorkflow.handle_not_interested_action, hconf, hfail]

/-- Witness for C1 at the urgent action with a failing email
environment. -/
theorem C1_witness :
    registeredHandler .urgent_action envEmailFail samplePayload =
      ([], .error "email send failed") :=
  C1_email_failure_aborts_handler .urgent_action envEmailFail samplePayload rfl rfl

/-! ## C3 -/

/-- C3 counterexample: at a concrete urgent decision event with every
collaborator healthy, the handler posts no message to any channel — in
particular no summary notification to an urgent broadcast channel — so
the claimed outcome-specific broadcast does not happen. -/
theorem C3_counterexample :
    (AgentWorkflow.handle_urgent_action envAllOk samplePayload).1.all
        (fun e => !e.isPost) = true ∧
    (AgentWorkflow.handle_urgent_action envAllOk samplePayload).2 = .ok () := by
  constructor
  · decide
  · rfl

/-- No registered decision handler ever posts a new message (shared
helper). -/
theorem handlers_never_post (a : ActionId) (env : HandlerEnv)
    (p : ActionPayload) :
    (registeredHandler a env p).1.all (fun e => !e.isPost) = true := by
  obtain ⟨ec, eo, uo, dc, dk⟩ := env
  cases a <;> cases ec <;> cases eo <;> cases uo <;> cases dc <;> cases dk <;>
    simp [registeredHandler, AgentWorkflow.handle_urgent_action,
      AgentWorkflow.handle_fund_not_urgent_action,
      AgentWorkflow.handle_future_fund_action,
      AgentWorkflow.handle_not_interested_action, Effect.isPost]

/-- C3 amended: no decision outcome broadcasts anything.  For every action
identifier, environment and payload, the registered handler's effect
trace contains no posted message: its only chat write is the in-place
update of the original notification.  (The three outcome channels exist
in the configuration but are read only by the initial-notification
channel map, never by the decision handlers.) -/
theorem C3_no_outcome_broadcasts (a : ActionId) (env : HandlerEnv)
    (p : ActionPayload) :
    (registeredHandler a env p).1.all (fun e => !e.isPost) = true :=
  handlers_never_post a env p

/-! ## C7 -/

/-- The template the claim assigns to each action identifier. -/
def claimedTagFor (a : ActionId) : EmailTemplate.Tag :=
  match a with
  | .urgent_action => .urgent_follow_up
  | .fund_not_urgent_action => .fund_not_urgent
  | .future_fund_action => .future_fund
  | .not_interested_action => .no_action

/-- Rendering a template tag on an extracted record, exactly as the
handlers apply the selected template (the not-interested handler passes
its fixed reasoning text instead of next steps). -/
def renderTag (t : EmailTemplate.Tag) (sd : StateData) : String :=
  match t with
  | .urgent_follow_up =>
    EmailTemplate.urgent_follow_up sd.company_name sd.summary sd.key_points sd.next_steps
  | .fund_not_urgent =>
    EmailTemplate.fund_not_urgent sd.company_name sd.summary sd.key_points sd.next_steps
  | .future_fund =>
    EmailTemplate.future_fund sd.company_name sd.summary sd.key_points sd.next_steps
  | .no_action =>
    EmailTemplate.no_action sd.company_name sd.summary sd.key_points
      AgentWorkflow.notInterestedReasoning

/-- The fixed subject-line prefix of each handler's test email. -/
def subjectPrefixFor (a : ActionId) : String :=
  match a with
  | .urgent_action => "[TEST] Urgent Follow-Up: "
  | .fund_not_urgent_action => "[TEST] Fund Follow-Up: "
  | .future_fund_action => "[TEST] Future Fund Opportunity: "
  | .not_interested_action => "[TEST] Investment Review: "

/-- C7: the email template is a static function of the action identifier
alone.  For every action identifier, the dictionary lookup the handler
performs returns the claimed template, and for every payload and
environment with a working email client, the one delivered email is
exactly that fixed template rendered on the record recovered from the
message — so two events with the same identifier always use the same
template, whatever their record content. -/
theorem C7_template_fixed_by_action (a : ActionId) (env : HandlerEnv)
    (p : ActionPayload) (hconf : env.emailConfigured = true)
    (hok : env.emailOk = true) :
    EmailTemplate.get_template_for_decision (handlerDecision a) = some (claimedTagFor a) ∧
    emailsOf (registeredHandler a env p).1 =
      [Effect.sendEmail EmailTemplate.TEST_EMAIL
        (subjectPrefixFor a ++
          AgentWorkflow.cleanCompanyName
            (AgentWorkflow.extract_state_from_blocks p.blocks).company_name)
        (renderTag (claimedTagFor a) (AgentWorkflow.extract_state_from_blocks p.blocks))] := by
  obtain ⟨ec, eo, uo, dc, dk⟩ := env
  simp only at hconf hok
  subst hconf hok
  cases a <;> cases uo <;> cases dc <;> cases dk <;>
    simp [registeredHandler, AgentWorkflow.handle_urgent_action,
      AgentWorkflow.handle_fund_not_urgent_action,
      AgentWorkflow.handle_future_fund_action,
      AgentWorkflow.handle_not_interested_action,
      emailsOf, Effect.isEmail, EmailTemplate.get_template_for_decision,
      handlerDecision, claimedTagFor, renderTag, subjectPrefixFor]

/-- Witness for C7 at the fund-not-urgent action on a concrete payload. -/
theorem C7_witness :
    EmailTemplate.get_template_for_decision (handlerDecision .fund_not_urgent_action) =
      some (claimedTagFor .fund_not_urgent_action) ∧
    emailsOf (registeredHandler .fund_not_urgent_action envAllOk samplePayload).1 =
      [Effect.sendEmail EmailTemplate.TEST_EMAIL
        (subjectPrefixFor .fund_not_urgent_action ++
          AgentWorkflow.cleanCompanyName
            (AgentWorkflow.extract_state_from_blocks samplePayload.blocks).company_name)
        (renderTag (claimedTagFor .fund_not_urgent_action)
          (AgentWorkflow.extract_state_from_blocks samplePayload.blocks))] :=
  C7_template_fixed_by_action .fund_not_urgent_action envAllOk samplePayload rfl rfl

/-! ## C6 -/

/-- The re-rendered message shape exactly as claim C6 states it: the
original blocks with only the action controls stripped, then one
decision section (with the email confirmation when an email was sent),
then one disabled "Processed" control. -/
def claimC6UpdateBlocks (original : List Block) (label : String)
    (emailSent : Bool) : List Block :=
  original.filter (fun b => !b.isActions) ++
    [AgentWorkflow.decisionSection label emailSent,
     Block.actions [{ text := "✅ Processed", value := "processed",
                      action_id := "processed_action", disabled := true,
                      hasConfirm := false }]]

/-- The decision label each handler renders. -/
def decisionLabelFor (a : ActionId) : String :=
  match a with
  | .urgent_action => "Urgent Action"
  | .fund_not_urgent_action => "Fund (Not Urgent)"
  | .future_fund_action => "Future Fund"
  | .not_interested_action => "Not Interested"

/-- Whether the handler's completion button carries the primary style and
confirmation dialog (only the urgent handler's does). -/
def processedStyleFor (a : ActionId) : Bool :=
  match a with
  | .urgent_action => true
  | _ => false

/-- C6 counterexample: at a concrete decision event whose message contains
a divider, the message update the urgent handler performs differs from
the re-render the claim describes — the handler also strips dividers,
and its appended "Processed" control is not disabled. -/
theorem C6_counterexample :
    updatesOf (AgentWorkflow.handle_urgent_action envSlackOnly samplePayload).1 =
      [Effect.updateMessage samplePayload.channel samplePayload.ts
        "Decision made: Urgent Action"
        (AgentWorkflow.filteredForUpdate samplePayload.blocks ++
          [AgentWorkflow.decisionSection "Urgent Action" false, Block.divider,
           AgentWorkflow.processedButton true])] ∧
    AgentWorkflow.filteredForUpdate samplePayload.blocks ++
        [AgentWorkflow.decisionSection "Urgent Action" false, Block.divider,
         AgentWorkflow.processedButton true] ≠
      claimC6UpdateBlocks samplePayload.blocks "Urgent Action" false := by
  constructor
  · decide
  · decide

/-- C6 amended: every handled decision action event re-renders by updating
the same (channel, timestamp) message in place — never posting a new
message — with the original blocks stripped of both action controls and
dividers, followed by exactly one "Decision: <outcome>" section (plus the
email-sent confirmation when the email client is configured), one
divider, and one "Processed" control, which is not marked disabled (and
carries a primary style and confirmation dialog only for the urgent
outcome). -/
theorem C6_rerender_shape (a : ActionId) (env : HandlerEnv) (p : ActionPayload)
    (hemail : env.emailConfigured = true → env.emailOk = true)
    (hupd : env.updateOk = true) :
    updatesOf (registeredHandler a env p).1 =
      [Effect.updateMessage p.channel p.ts ("Decision made: " ++ decisionLabelFor a)
        (AgentWorkflow.filteredForUpdate p.blocks ++
          [AgentWorkflow.decisionSection (decisionLabelFor a) env.emailConfigured,
           Block.divider, AgentWorkflow.processedButton (processedStyleFor a)])] ∧
    (registeredHandler a env p).1.all (fun e => !e.isPost) = true := by
  refine ⟨?_, handlers_never_post a env p⟩
  obtain ⟨ec, eo, uo, dc, dk⟩ := env
  simp only at hemail hupd
  subst hupd
  cases a <;> cases ec <;> cases eo <;> cases dc <;> cases dk <;>
    simp_all [registeredHandler, AgentWorkflow.handle_urgent_action,
      AgentWorkflow.handle_fund_not_urgent_action,
      AgentWorkflow.handle_future_fund_action,
      AgentWorkflow.handle_not_interested_action,
      updatesOf, Effect.isUpdate, decisionLabelFor, processedStyleFor]

/-- Witness for C6 at the not-interested action on a concrete payload. -/
theorem C6_witness :
    updatesOf (registeredHandler .not_interested_action envAllOk samplePayload).1 =
      [Effect.updateMessage samplePayload.channel samplePayload.ts
        ("Decision made: " ++ decisionLabelFor .not_interested_action)
        (AgentWorkflow.filteredForUpdate samplePayload.blocks ++
          [AgentWorkflow.decisionSection (decisionLabelFor .not_interested_action)
             envAllOk.emailConfigured,
           Block.divider,
           AgentWorkflow.processedButton (processedStyleFor .not_interested_action)])] ∧
    (registeredHandler .not_interested_action envAllOk samplePayload).1.all
        (fun e => !e.isPost) = true :=
  C6_rerender_shape .not_interested_action envAllOk samplePayload (fun _ => rfl) rfl

/-! ## C2 -/

/-- The initial notification never carries an `actions` block: every block
`send` builds is a header or a section. -/
theorem sendBlocks_no_actions (st : ProcessingState) :
    (SlackOutputHandler.sendBlocks st).all (fun b => !b.isActions) = true := by
  unfold SlackOutputHandler.sendBlocks
  by_cases hk : st.key_points = [] <;>
    cases hc : st.company_info <;>
      by_cases hp : st.participants = [] <;>
        simp [hk, hc, hp, Block.isActions]

/-- Successful mandatory extraction on a state yields a record carrying
the basic-info fields, with identity and decision untouched (shared
helper). -/
theorem process_ok_fields (st : ProcessingState) (b : BasicInfo)
    (companyParsed : Option Jobj) (parts : List Participant)
    (htr : pyStrip st.transcript ≠ "") (hs : pyStrip b.summary ≠ "")
    (hk : b.key_points ≠ []) :
    ∃ st', TranscriptionAgent.process st (.ok b) companyParsed parts = .ok st' ∧
      st'.summary = b.summary ∧ st'.key_points = b.key_points ∧
      st'.transcript_id = st.transcript_id ∧ st'.decision = st.decision := by
  have htr' : st.transcript ≠ "" := fun h => htr (by rw [h]; rfl)
  unfold TranscriptionAgent.process
  rw [if_neg (by simp [htr, htr'])]
  have hs' : decide (pyStrip b.summary = "") = false := by simp [hs]
  have hk' : decide (b.key_points = []) = false := by simp [hk]
  simp only [hs', hk', Bool.or_self, Bool.false_eq_true, if_false]
  cases hec : TranscriptionAgent.extract_company_info companyParsed with
  | none =>
    by_cases hp : parts = [] <;> simp [hp]
  | some c =>
    by_cases hn : (match jget c "name" with | some (.str s) => s != "" | _ => false) = true
    · cases hm : TranscriptionAgent.mkCompanyInfo c with
      | none =>
        by_cases hp : parts = [] <;> simp [hn, hm, hp]
      | some ci =>
        by_cases hp : parts = [] <;> simp [hn, hm, hp]
    · by_cases hp : parts = [] <;>
        simp [Bool.of_not_eq_true hn, hp]

/-- C2 counterexample: at a concrete transcript whose extraction and post
succeed, the orchestrator performs exactly one external write — the
posted notification — and none of that message's blocks is an `actions`
block, so the claimed four enabled decision controls are absent. -/
theorem C2_counterexample :
    (AgentWorkflow.process_transcript cfg0 [] "We met Acme." "id-1" 3
        (.ok sampleBasic) none [] (some "1700.1")).1.length = 1 ∧
    (AgentWorkflow.process_transcript cfg0 [] "We met Acme." "id-1" 3
        (.ok sampleBasic) none [] (some "1700.1")).1.all
      (fun e => match e with
        | .postMessage _ _ bs => bs.all (fun bl => !bl.isActions)
        | _ => false) = true := by
  constructor
  · decide
  · decide

/-- C2 amended: for every transcript whose mandatory extraction succeeds
and whose post succeeds, `process_transcript` posts exactly one initial
notification — rendered by `send`, on the follow-up channel (the fresh
record has no decision), containing NO action controls — and records the
transcript-id ↦ (channel, message timestamp) mapping before returning
the record.  (The four enabled decision controls are attached only by the
interaction handler's Krisp-message path, on a different message.) -/
theorem C2_initial_notification_without_controls (cfg : SlackCfg)
    (cache : SlackOutputHandler.Cache) (transcript tid : String) (dur : Nat)
    (b : BasicInfo) (companyParsed : Option Jobj) (parts : List Participant)
    (ts : String) (htr : pyStrip transcript ≠ "") (hs : pyStrip b.summary ≠ "")
    (hk : b.key_points ≠ []) :
    ∃ st : ProcessingState,
      AgentWorkflow.process_transcript cfg cache transcript tid dur (.ok b)
          companyParsed parts (some ts) =
        ([Effect.postMessage cfg.follow_up_channel (pyTake 100 b.summary ++ "...")
            (SlackOutputHandler.sendBlocks st)],
         (tid, cfg.follow_up_channel, ts) :: cache, .ok st) ∧
      st.transcript_id = tid ∧ st.summary = b.summary ∧ st.key_points = b.key_points ∧
      (SlackOutputHandler.sendBlocks st).all (fun bl => !bl.isActions) = true := by
  obtain ⟨st', hok, h1, h2, h3, h4⟩ :=
    process_ok_fields { transcript := transcript, transcript_id := tid } b
      companyParsed parts htr hs hk
  refine ⟨{ st' with processing_duration := dur }, ?_, h3, h1, h2,
    sendBlocks_no_actions _⟩
  unfold AgentWorkflow.process_transcript
  simp only [hok]
  unfold SlackOutputHandler.send SlackOutputHandler.channelFor
  simp [h1, h3, h4]

/-- Witness for the amended C2 at a concrete transcript. -/
theorem C2_witness :
    ∃ st : ProcessingState,
      AgentWorkflow.process_transcript cfg0 [] "We met Acme." "id-1" 3
          (.ok sampleBasic) none [] (some "1700.1") =
        ([Effect.postMessage cfg0.follow_up_channel
            (pyTake 100 sampleBasic.summary ++ "...") (SlackOutputHandler.sendBlocks st)],
         ("id-1", cfg0.follow_up_channel, "1700.1") :: [], .ok st) ∧
      st.transcript_id = "id-1" ∧ st.summary = sampleBasic.summary ∧
      st.key_points = sampleBasic.key_points ∧
      (SlackOutputHandler.sendBlocks st).all (fun bl => !bl.isActions) = true :=
  C2_initial_notification_without_controls cfg0 [] "We met Acme." "id-1" 3
    sampleBasic none [] "1700.1" (by decide) (by decide) (by decide)

/-! ## C10 -/

namespace SlackInteractionHandler

/-- One handler run leaves the processed set unchanged or conses exactly
the event's timestamp. -/
theorem handle_event_set_shape (cfg : SlackCfg) (processed : List String)
    (e : MessageEvent) :
    (handle_message_event cfg processed e).1 = processed ∨
    (handle_message_event cfg processed e).1 = e.ts :: processed := by
  unfold handle_message_event
  by_cases h1 : e.ts ∈ processed <;>
    cases h2 : e.isKrispNotesMessage <;>
      cases h3 : e.notes_link <;>
        cases h4 : e.meeting_notes <;>
          cases h5 : e.postOk <;>
            simp [h1, h2, h3, h4, h5]

/-- An event whose timestamp is already in the processed set returns
immediately: no set change and no write. -/
theorem handle_event_skips_processed (cfg : SlackCfg) (processed : List String)
    (e : MessageEvent) (h : processed.contains e.ts = true) :
    handle_message_event cfg processed e = (processed, []) := by
  have h1 : e.ts ∈ processed := by simpa using h
  unfold handle_message_event
  simp [h1]

/-- A run that posts adds exactly the event's timestamp to the set. -/
theorem didPost_adds_ts (cfg : SlackCfg) (processed : List String)
    (e : MessageEvent) (h : didPost cfg processed e = true) :
    (handle_message_event cfg processed e).1 = e.ts :: processed := by
  unfold didPost handle_message_event at *
  by_cases h1 : e.ts ∈ processed
  · simp [h1] at h
  · cases h2 : e.isKrispNotesMessage <;>
      cases h3 : e.notes_link <;>
        cases h4 : e.meeting_notes <;>
          cases h5 : e.postOk <;>
            simp_all [h1, h2, h3, h4, h5]

/-- A run that does not post leaves the set unchanged. -/
theorem not_didPost_keeps_set (cfg : SlackCfg) (processed : List String)
    (e : MessageEvent) (h : didPost cfg processed e = false) :
    (handle_message_event cfg processed e).1 = processed := by
  unfold didPost handle_message_event at *
  by_cases h1 : e.ts ∈ processed
  · simp [h1]
  · cases h2 : e.isKrispNotesMessage <;>
      cases h3 : e.notes_link <;>
        cases h4 : e.meeting_notes <;>
          cases h5 : e.postOk <;>
            simp_all [h1, h2, h3, h4, h5]

/-- A run never posts for a timestamp already in the set. -/
theorem not_didPost_of_contains (cfg : SlackCfg) (processed : List String)
    (e : MessageEvent) (h : processed.contains e.ts = true) :
    didPost cfg processed e = false := by
  unfold didPost
  rw [handle_event_skips_processed cfg processed e h]
  rfl

/-- Once the set holds `t`, no later event posts for `t`. -/
theorem postedCount_zero_of_contains (cfg : SlackCfg) (t : String) :
    ∀ (events : List MessageEvent) (processed : List String),
      processed.contains t = true → postedCount cfg processed t events = 0 := by
  intro events
  induction events with
  | nil => intro processed _; rfl
  | cons e rest ih =>
    intro processed hmem
    unfold postedCount
    have hind : (if e.ts = t ∧ didPost cfg processed e then 1 else 0) = 0 := by
      by_cases hts : e.ts = t
      · have : didPost cfg processed e = false :=
          not_didPost_of_contains cfg processed e (by rw [hts]; exact hmem)
        simp [this]
      · simp [hts]
    rw [hind]
    have hmem' : (handle_message_event cfg processed e).1.contains t = true := by
      have htm : t ∈ processed := by simpa using hmem
      rcases handle_event_set_shape cfg processed e with h | h <;> rw [h]
      · exact hmem
      · simp [List.contains_cons]
        exact Or.inr htm
    simpa using ih (handle_message_event cfg processed e).1 hmem'

/-- At most one post per timestamp over any delivered sequence. -/
theorem postedCount_le_one (cfg : SlackCfg) (t : String) :
    ∀ (events : List MessageEvent) (processed : List String),
      postedCount cfg processed t events ≤ 1 := by
  intro events
  induction events with
  | nil => intro processed; exact Nat.zero_le 1
  | cons e rest ih =>
    intro processed
    unfold postedCount
    by_cases hd : e.ts = t ∧ didPost cfg processed e
    · rw [if_pos hd]
      have hset : (handle_message_event cfg processed e).1 = e.ts :: processed :=
        didPost_adds_ts cfg processed e hd.2
      have : postedCount cfg (handle_message_event cfg processed e).1 t rest = 0 := by
        apply postedCount_zero_of_contains
        rw [hset, hd.1]
        simp [List.contains_cons]
      omega
    · rw [if_neg hd]
      have := ih (handle_message_event cfg processed e).1
      omega

end SlackInteractionHandler

/-- A concrete Krisp message event whose fetch and post succeed. -/
def sampleEvent : MessageEvent :=
  { ts := "42.1", isKrispNotesMessage := true,
    notes_link := some "https://app.krisp.ai/t/abc", company := "Acme",
    participantsText := "John Smith", meeting_notes := some ("Good call", ["Follow up"]),
    processedAtStr := "2025-01-01 10:00:00", postOk := true }

/-- C10: the interaction handler posts the analysis notification at most
once per message timestamp per process lifetime.  Starting from the
empty processed set, any delivered event sequence produces at most one
post for a given timestamp; a timestamp enters the set exactly on a run
that posted (so only after a successful post), and every event whose
timestamp is already in the set returns with no set change and no
external write.  (Proved over the sequential event-loop model in which
one handler run completes before the next event is handled.) -/
theorem C10_at_most_once_per_timestamp (cfg : SlackCfg)
    (events : List MessageEvent) (t : String) :
    SlackInteractionHandler.postedCount cfg [] t events ≤ 1 ∧
    (∀ (processed : List String) (e : MessageEvent), processed.contains e.ts = true →
      SlackInteractionHandler.handle_message_event cfg processed e = (processed, [])) ∧
    (∀ (processed : List String) (e : MessageEvent),
      SlackInteractionHandler.didPost cfg processed e = true →
      (SlackInteractionHandler.handle_message_event cfg processed e).1 = e.ts :: processed) ∧
    (∀ (processed : List String) (e : MessageEvent),
      SlackInteractionHandler.didPost cfg processed e = false →
      (SlackInteractionHandler.handle_message_event cfg processed e).1 = processed) :=
  ⟨SlackInteractionHandler.postedCount_le_one cfg t events [],
   fun processed e h => SlackInteractionHandler.handle_event_skips_processed cfg processed e h,
   fun processed e h => SlackInteractionHandler.didPost_adds_ts cfg processed e h,
   fun processed e h => SlackInteractionHandler.not_didPost_keeps_set cfg processed e h⟩

/-- Witness for C10: the same event delivered twice posts once, and a
replay against a set holding its timestamp is a no-op. -/
theorem C10_witness :
    SlackInteractionHandler.postedCount cfg0 [] "42.1" [sampleEvent, sampleEvent] ≤ 1 ∧
    SlackInteractionHandler.handle_message_event cfg0 ["42.1"] sampleEvent = (["42.1"], []) :=
  ⟨(C10_at_most_once_per_timestamp cfg0 [sampleEvent, sampleEvent] "42.1").1,
   (C10_at_most_once_per_timestamp cfg0 [] "42.1").2.1 ["42.1"] sampleEvent (by decide)⟩

/-! ## C4 -/

/-- A concrete record with non-empty summary and key points. -/
def st4 : ProcessingState :=
  { transcript := "We met Acme.", transcript_id := "id-4",
    summary := "Acme pitched well",
    key_points := ["grew fast", "strong team", "raising soon"] }

/-- C4 counterexample: rendering a concrete record with non-empty summary
and key points through `SlackFormatter.format_processing_result` and
scraping the blocks back loses both fields — the formatter labels the
summary `*Executive Summary*` (no `*Summary:*` label) and renders no
key-points section at all — so the claimed round-trip through the
formatter fails. -/
theorem C4_counterexample :
    (AgentWorkflow.extract_state_from_blocks
        (SlackFormatter.format_processing_result st4 none)).summary = "" ∧
    (AgentWorkflow.extract_state_from_blocks
        (SlackFormatter.format_processing_result st4 none)).key_points = [] ∧
    st4.summary ≠ "" ∧ st4.key_points ≠ [] := by
  refine ⟨by decide, by decide, by decide, by decide⟩

/-- Text that survives the scrape unchanged: non-empty, free of markdown
emphasis, newlines and bullet characters, with no whitespace at either
end (interior spaces are fine). -/
def cleanText (s : String) : Bool :=
  s ≠ "" &&
  s.toList.all (fun c => !(c = '*' || c = '\n' || c = '•')) &&
  (match s.toList.head? with | some c => !c.isWhitespace | none => true) &&
  (match s.toList.getLast? with | some c => !c.isWhitespace | none => true)

/-! ### Character-list lemmas for the round-trip proof -/

/-- A mismatch between `pat` and the window occurring before either runs
out. -/
def mismatchWithin (pat win : List Char) : Bool :=
  match pat, win with
  | [], _ => false
  | _ :: _, [] => false
  | a :: ps, b :: ws => (a != b) || mismatchWithin ps ws

/-- Every alignment of `pat` against a position of `pre` mismatches inside
`pre` itself. -/
def noAlignedMatch (pat pre : List Char) : Bool :=
  (List.range pre.length).all (fun k => mismatchWithin pat (pre.drop k))

theorem isPrefixOf_false_of_mismatch (pat win tail : List Char)
    (h : mismatchWithin pat win = true) :
    pat.isPrefixOf (win ++ tail) = false := by
  induction pat generalizing win with
  | nil => simp [mismatchWithin] at h
  | cons a ps ih =>
    cases win with
    | nil => simp [mismatchWithin] at h
    | cons b ws =>
      simp only [mismatchWithin, Bool.or_eq_true, bne_iff_ne] at h
      rcases h with h | h
      · simp [List.isPrefixOf, h]
      · simp [List.isPrefixOf, ih ws h]

theorem isPrefixOf_self_append (p t : List Char) : p.isPrefixOf (p ++ t) = true := by
  induction p with
  | nil => simp [List.isPrefixOf]
  | cons a ps ih => simp [List.isPrefixOf, ih]

theorem containsSeq_false_of_head_notMem (a : Char) (ps l : List Char)
    (h : a ∉ l) : containsSeq (a :: ps) l = false := by
  induction l with
  | nil => rfl
  | cons c rest ih =>
    have hac : a ≠ c := fun hh => h (hh ▸ List.mem_cons_self c rest)
    have hrest : a ∉ rest := fun hh => h (List.mem_cons_of_mem c hh)
    simp [containsSeq, List.isPrefixOf, hac, ih hrest]

theorem subIdx_none_of_head_notMem (a : Char) (ps l : List Char)
    (h : a ∉ l) : subIdx (a :: ps) l = none := by
  induction l with
  | nil => rfl
  | cons c rest ih =>
    have hac : a ≠ c := fun hh => h (hh ▸ List.mem_cons_self c rest)
    have hrest : a ∉ rest := fun hh => h (List.mem_cons_of_mem c hh)
    simp [subIdx, List.isPrefixOf, hac, ih hrest]

theorem noAlignedMatch_cons (pat : List Char) (c : Char) (pre : List Char)
    (h : noAlignedMatch pat (c :: pre) = true) :
    mismatchWithin pat (c :: pre) = true ∧ noAlignedMatch pat pre = true := by
  unfold noAlignedMatch at *
  simp only [List.length_cons, List.range_succ_eq_map, List.all_cons, List.all_map,
    Bool.and_eq_true, List.all_eq_true, Function.comp] at h ⊢
  obtain ⟨h0, hrest⟩ := h
  refine ⟨by simpa using h0, fun k hk => by simpa using hrest k hk⟩

theorem containsSeq_append_false (pat pre tail : List Char)
    (hpre : noAlignedMatch pat pre = true)
    (htail : containsSeq pat tail = false) :
    containsSeq pat (pre ++ tail) = false := by
  induction pre with
  | nil => simpa using htail
  | cons c pre' ih =>
    obtain ⟨h0, hrest⟩ := noAlignedMatch_cons pat c pre' hpre
    have hpref : pat.isPrefixOf ((c :: pre') ++ tail) = false :=
      isPrefixOf_false_of_mismatch pat (c :: pre') tail h0
    simp only [List.cons_append] at hpref ⊢
    simp [containsSeq, hpref, ih hrest]

theorem containsSeq_self_append (a : Char) (ps t : List Char) :
    containsSeq (a :: ps) ((a :: ps) ++ t) = true := by
  simp [containsSeq, isPrefixOf_self_append]

theorem subIdx_self_append (a : Char) (ps t : List Char) :
    subIdx (a :: ps) ((a :: ps) ++ t) = some 0 := by
  simp [subIdx, isPrefixOf_self_append]

/-- `split(pat)[1]` of `pat ++ body` is `body` when `pat` does not occur in
`body` (`pat` written head-first). -/
theorem splitAfter1_label (a : Char) (ps body : List Char)
    (hb : subIdx (a :: ps) body = none) :
    splitAfter1 (a :: ps) ((a :: ps) ++ body) = body := by
  unfold splitAfter1
  rw [subIdx_self_append]
  simp only [Nat.zero_add]
  rw [List.drop_left]
  rw [hb]

theorem dropWhile_eq_self_of_head (p : Char → Bool) (l : List Char)
    (h : ∀ c, l.head? = some c → p c = false) : l.dropWhile p = l := by
  cases l with
  | nil => rfl
  | cons c rest => simp [List.dropWhile, h c rfl]

theorem stripList_eq_self (l : List Char)
    (hh : ∀ c, l.head? = some c → c.isWhitespace = false)
    (hl : ∀ c, l.getLast? = some c → c.isWhitespace = false) :
    stripList l = l := by
  unfold stripList
  rw [dropWhile_eq_self_of_head _ l hh]
  rw [dropWhile_eq_self_of_head _ l.reverse (fun c hc => hl c (by rwa [List.head?_reverse] at hc))]
  exact List.reverse_reverse l

theorem stripList_ws_cons (c : Char) (hc : c.isWhitespace = true) (l : List Char)
    (hh : ∀ d, l.head? = some d → d.isWhitespace = false)
    (hl : ∀ d, l.getLast? = some d → d.isWhitespace = false) :
    stripList (c :: l) = l := by
  unfold stripList
  rw [List.dropWhile_cons_of_pos (by simpa using hc)]
  rw [dropWhile_eq_self_of_head _ l hh]
  rw [dropWhile_eq_self_of_head _ l.reverse (fun d hd => hl d (by rwa [List.head?_reverse] at hd))]
  exact List.reverse_reverse l

theorem replaceAux_single_notMem (a : Char) (repl l : List Char) (h : a ∉ l) :
    ∀ fuel, replaceAux [a] repl fuel l = l := by
  induction l with
  | nil => intro fuel; cases fuel <;> rfl
  | cons c rest ih =>
    intro fuel
    cases fuel with
    | zero => rfl
    | succ n =>
      have hac : a ≠ c := fun hh => h (hh ▸ List.mem_cons_self c rest)
      have hrest : a ∉ rest := fun hh => h (List.mem_cons_of_mem c hh)
      simp [replaceAux, List.isPrefixOf, hac, ih hrest]

/-- `s.replace(a, r)` is the identity when the single replaced character
does not occur. -/
theorem pyReplace_single_notMem (s : String) (a : Char) (repl : String)
    (h : a ∉ s.toList) :
    pyReplace s (String.mk [a]) repl = s := by
  unfold pyReplace
  have : replaceAux [a] repl.toList s.toList.length s.toList = s.toList :=
    replaceAux_single_notMem a repl.toList s.toList h s.toList.length
  simp only [String.toList] at this ⊢
  exact congrArg String.mk this

theorem splitOnChar_not_mem (a : Char) (l : List Char) (h : a ∉ l) :
    splitOnChar a l = [l] := by
  induction l with
  | nil => rfl
  | cons c rest ih =>
    have hac : c ≠ a := fun hh => h (hh ▸ List.mem_cons_self c rest)
    have hrest : a ∉ rest := fun hh => h (List.mem_cons_of_mem c hh)
    simp [splitOnChar, hac, ih hrest]

theorem splitOnChar_append_sep (a : Char) (l₁ l₂ : List Char) (h : a ∉ l₁) :
    splitOnChar a (l₁ ++ a :: l₂) = l₁ :: splitOnChar a l₂ := by
  induction l₁ with
  | nil => simp [splitOnChar]
  | cons c rest ih =>
    have hac : c ≠ a := fun hh => h (hh ▸ List.mem_cons_self c rest)
    have hrest : a ∉ rest := fun hh => h (List.mem_cons_of_mem c hh)
    have := ih hrest
    simp only [List.cons_append, splitOnChar, hac, if_false, List.append_eq, this]

theorem splitOnChar_joinSep (a : Char) (ls : List (List Char))
    (h : ∀ l ∈ ls, a ∉ l) (hne : ls ≠ []) :
    splitOnChar a (joinSep [a] ls) = ls := by
  induction ls with
  | nil => exact absurd rfl hne
  | cons x rest ih =>
    cases rest with
    | nil => exact splitOnChar_not_mem a x (h x (List.mem_cons_self x []))
    | cons y rest' =>
      have hx : a ∉ x := h x (List.mem_cons_self x (y :: rest'))
      have hrest : ∀ l ∈ y :: rest', a ∉ l := fun l hl => h l (List.mem_cons_of_mem x hl)
      have : joinSep [a] (x :: y :: rest') = x ++ a :: joinSep [a] (y :: rest') := by
        simp [joinSep]
      rw [this, splitOnChar_append_sep a x _ hx, ih hrest (by simp)]

theorem mem_joinSep (a : Char) (sep : List Char) (ls : List (List Char))
    (h : a ∈ joinSep sep ls) : a ∈ sep ∨ ∃ l ∈ ls, a ∈ l := by
  induction ls with
  | nil => simp [joinSep] at h
  | cons x rest ih =>
    cases rest with
    | nil =>
      right
      exact ⟨x, List.mem_cons_self x [], by simpa [joinSep] using h⟩
    | cons y rest' =>
      simp only [joinSep, List.append_assoc, List.mem_append] at h
      rcases h with h | h | h
      · exact Or.inr ⟨x, List.mem_cons_self x _, h⟩
      · exact Or.inl h
      · rcases ih (by simpa [joinSep] using h) with h' | ⟨l, hl, ha⟩
        · exact Or.inl h'
        · exact Or.inr ⟨l, List.mem_cons_of_mem x hl, ha⟩

theorem toList_append (s t : String) : (s ++ t).toList = s.toList ++ t.toList := by
  cases s
  cases t
  rfl

theorem str_append_assoc (x y z : String) : (x ++ y) ++ z = x ++ (y ++ z) := by
  cases x
  cases y
  cases z
  show String.mk _ = String.mk _
  rw [List.append_assoc]

theorem mk_toList (s : String) : String.mk s.toList = s := rfl

theorem toList_ne_nil_of_ne_empty (s : String) (h : s ≠ "") : s.toList ≠ [] := by
  intro hl
  apply h
  cases s
  simp only [String.toList] at hl
  exact congrArg String.mk hl

theorem ne_empty_of_toList_cons (s : String) (c : Char) (l : List Char)
    (h : s.toList = c :: l) : s ≠ "" := by
  intro he
  rw [he] at h
  exact absurd h (by simp [String.toList])

/-- Unpacked consequences of `cleanText`. -/
theorem cleanText_spec (s : String) (h : cleanText s = true) :
    s.toList ≠ [] ∧ ('*' : Char) ∉ s.toList ∧ ('\n' : Char) ∉ s.toList ∧
    ('•' : Char) ∉ s.toList ∧
    (∀ c, s.toList.head? = some c → c.isWhitespace = false) ∧
    (∀ c, s.toList.getLast? = some c → c.isWhitespace = false) := by
  simp only [cleanText, Bool.and_eq_true] at h
  obtain ⟨⟨⟨hne, hall⟩, hh⟩, hl⟩ := h
  have hne' : s ≠ "" := by simpa using hne
  have hall' : ∀ c ∈ s.toList, !(c = '*' || c = '\n' || c = '•') = true := by
    simpa [List.all_eq_true] using hall
  refine ⟨toList_ne_nil_of_ne_empty s hne', ?_, ?_, ?_, ?_, ?_⟩
  · intro hmem; have := hall' '*' hmem; simp at this
  · intro hmem; have := hall' '\n' hmem; simp at this
  · intro hmem; have := hall' '•' hmem; simp at this
  · intro c hc
    rw [hc] at hh
    simpa using hh
  · intro c hc
    rw [hc] at hl
    simpa using hl

theorem pyStrip_eq_self (s : String)
    (hh : ∀ c, s.toList.head? = some c → c.isWhitespace = false)
    (hl : ∀ c, s.toList.getLast? = some c → c.isWhitespace = false) :
    pyStrip s = s := by
  unfold pyStrip
  rw [stripList_eq_self s.toList hh hl]
  exact mk_toList s

theorem pyStrip_clean (s : String) (h : cleanText s = true) : pyStrip s = s := by
  obtain ⟨-, -, -, -, hh, hl⟩ := cleanText_spec s h
  exact pyStrip_eq_self s hh hl

theorem pyReplace_star_clean (s : String) (h : ('*' : Char) ∉ s.toList) :
    pyReplace s "*" "" = s :=
  pyReplace_single_notMem s '*' "" h

theorem pyReplace_nl_clean (s : String) (h : ('\n' : Char) ∉ s.toList) :
    pyReplace s "\n" " " = s :=
  pyReplace_single_notMem s '\n' " " h

/-- Containment of a starred label fails on a text made of a
mismatch-free concrete prefix and a star-free tail. -/
theorem pyIn_label_false (needle : String) (ps : List Char)
    (hn : needle.toList = '*' :: ps) (pre s : String)
    (hpre : noAlignedMatch needle.toList pre.toList = true)
    (hs : ('*' : Char) ∉ s.toList) :
    pyIn needle (pre ++ s) = false := by
  unfold pyIn
  rw [toList_append]
  refine containsSeq_append_false _ _ _ hpre ?_
  rw [hn]
  exact containsSeq_false_of_head_notMem '*' ps _ hs

theorem pyIn_label_true (label rest : String) (a : Char) (ps : List Char)
    (hn : label.toList = a :: ps) :
    pyIn label (label ++ rest) = true := by
  unfold pyIn
  rw [toList_append, hn]
  exact containsSeq_self_append a ps _

theorem pySplitAfter_label (label rest : String) (a : Char) (ps : List Char)
    (hn : label.toList = a :: ps) (hrest : a ∉ rest.toList) :
    pySplitAfter (label ++ rest) label = rest := by
  unfold pySplitAfter
  rw [toList_append, hn,
    splitAfter1_label a ps _ (subIdx_none_of_head_notMem a ps _ hrest)]
  exact mk_toList rest

/-- Stripping `"\n" ++ s` for clean `s` gives back `s`. -/
theorem pyStrip_nl_append (s : String) (h : cleanText s = true) :
    pyStrip ("\n" ++ s) = s := by
  obtain ⟨-, -, -, -, hh, hl⟩ := cleanText_spec s h
  unfold pyStrip
  rw [toList_append]
  have : ("\n".toList ++ s.toList) = '\n' :: s.toList := rfl
  rw [this, stripList_ws_cons '\n' (by decide) s.toList hh hl]
  exact mk_toList s

/-- The character list behind the rendered key-points bullet text. -/
theorem kpText_toList (kps : List String) :
    (pyJoin "\n" (kps.map (fun p => "• " ++ p))).toList =
      joinSep ['\n'] ((kps.map (fun p => "• " ++ p)).map String.toList) := rfl

theorem bullet_line_toList (p : String) :
    ("• " ++ p).toList = '•' :: ' ' :: p.toList := by
  rw [toList_append]
  rfl

/-- Characters of the rendered bullet text: the newline separator, the
bullet, the space, or a character of one of the points. -/
theorem kpText_char_cases (kps : List String) (c : Char)
    (hc : c ∈ (pyJoin "\n" (kps.map (fun p => "• " ++ p))).toList) :
    c = '\n' ∨ c = '•' ∨ c = ' ' ∨ ∃ p ∈ kps, c ∈ p.toList := by
  rw [kpText_toList] at hc
  rcases mem_joinSep c ['\n'] _ hc with h | ⟨l, hl, hcl⟩
  · exact Or.inl (by simpa using h)
  · simp only [List.map_map, List.mem_map, Function.comp] at hl
    obtain ⟨p, hp, rfl⟩ := hl
    rw [bullet_line_toList] at hcl
    simp only [List.mem_cons] at hcl
    rcases hcl with rfl | rfl | hcl
    · exact Or.inr (Or.inl rfl)
    · exact Or.inr (Or.inr (Or.inl rfl))
    · exact Or.inr (Or.inr (Or.inr ⟨p, hp, hcl⟩))

theorem kpText_no_star (kps : List String) (h : ∀ p ∈ kps, cleanText p = true) :
    ('*' : Char) ∉ (pyJoin "\n" (kps.map (fun p => "• " ++ p))).toList := by
  intro hc
  rcases kpText_char_cases kps '*' hc with h1 | h1 | h1 | ⟨p, hp, hmem⟩
  · exact absurd h1 (by decide)
  · exact absurd h1 (by decide)
  · exact absurd h1 (by decide)
  · obtain ⟨-, hstar, -, -, -, -⟩ := cleanText_spec p (h p hp)
    exact hstar hmem

theorem joinSep_ne_nil (sep : List Char) (ls : List (List Char))
    (hne : ls ≠ []) (hl : ∀ l ∈ ls, l ≠ []) : joinSep sep ls ≠ [] := by
  cases ls with
  | nil => exact absurd rfl hne
  | cons x rest =>
    cases rest with
    | nil => exact hl x (List.mem_cons_self x [])
    | cons y r =>
      have hx : x ≠ [] := hl x (List.mem_cons_self x _)
      simp [joinSep]
      intro hx'
      exact absurd hx' hx

/-- Head and last characters of the rendered bullet text are never
whitespace (the head is the bullet, the last is a point's last
character). -/
theorem kpText_ends (kps : List String) (h : ∀ p ∈ kps, cleanText p = true)
    (hne : kps ≠ []) :
    (∀ c, (pyJoin "\n" (kps.map (fun p => "• " ++ p))).toList.head? = some c →
      c.isWhitespace = false) ∧
    (∀ c, (pyJoin "\n" (kps.map (fun p => "• " ++ p))).toList.getLast? = some c →
      c.isWhitespace = false) := by
  induction kps with
  | nil => exact absurd rfl hne
  | cons p rest ih =>
    have hp := h p (List.mem_cons_self p rest)
    obtain ⟨hpne, -, -, -, -, hpl⟩ := cleanText_spec p hp
    cases rest with
    | nil =>
      constructor
      · intro c hc
        rw [kpText_toList] at hc
        simp only [List.map_cons, List.map_nil, joinSep, bullet_line_toList] at hc
        simp only [List.head?] at hc
        cases hc
        decide
      · intro c hc
        rw [kpText_toList] at hc
        simp only [List.map_cons, List.map_nil, joinSep, bullet_line_toList] at hc
        have : ('•' :: ' ' :: p.toList) = ['•', ' '] ++ p.toList := rfl
        rw [this, List.getLast?_append_of_ne_nil _ hpne] at hc
        exact hpl c hc
    | cons q rest' =>
      have hrest : ∀ x ∈ q :: rest', cleanText x = true :=
        fun x hx => h x (List.mem_cons_of_mem p hx)
      obtain ⟨-, ihl⟩ := ih hrest (by simp)
      have hjoin : (pyJoin "\n" ((p :: q :: rest').map (fun x => "• " ++ x))).toList =
          ("• " ++ p).toList ++ '\n' ::
            (pyJoin "\n" ((q :: rest').map (fun x => "• " ++ x))).toList := by
        rw [kpText_toList, kpText_toList]
        simp only [List.map_cons, joinSep]
        rw [List.append_assoc]
        rfl
      constructor
      · intro c hc
        rw [hjoin, bullet_line_toList] at hc
        simp only [List.cons_append, List.head?] at hc
        cases hc
        decide
      · intro c hc
        rw [hjoin] at hc
        have hjr : (pyJoin "\n" ((q :: rest').map (fun x => "• " ++ x))).toList ≠ [] := by
          rw [kpText_toList]
          refine joinSep_ne_nil _ _ (by simp) ?_
          intro l hl
          simp only [List.map_map, List.mem_map, Function.comp] at hl
          obtain ⟨x, -, rfl⟩ := hl
          rw [bullet_line_toList]
          simp
        rw [List.getLast?_append_of_ne_nil _ (by simp [hjr])] at hc
        have : ('\n' :: (pyJoin "\n" ((q :: rest').map (fun x => "• " ++ x))).toList) =
            ['\n'] ++ (pyJoin "\n" ((q :: rest').map (fun x => "• " ++ x))).toList := rfl
        rw [this, List.getLast?_append_of_ne_nil _ hjr] at hc
        exact ihl c hc

theorem isPrefixOf_single_false (a : Char) (l : List Char) (h : a ∉ l) :
    [a].isPrefixOf l = false := by
  cases l with
  | nil => rfl
  | cons c rest =>
    have hac : a ≠ c := fun hh => h (hh ▸ List.mem_cons_self c rest)
    simp [List.isPrefixOf, hac]

/-- One fold step of the key-points scrape on a rendered bullet line
recovers the point. -/
theorem bullet_line_step (acc : List String) (p : String) (hp : cleanText p = true) :
    AgentWorkflow.scanBulletLine acc ("• " ++ p) = acc ++ [p] := by
  unfold AgentWorkflow.scanBulletLine
  obtain ⟨hne, hstar, hnl, hbul, hh, hl⟩ := cleanText_spec p hp
  have h1 : pyStrip ("• " ++ p) = "• " ++ p := by
    apply pyStrip_eq_self
    · intro c hc
      rw [bullet_line_toList] at hc
      simp only [List.head?] at hc
      cases hc
      decide
    · intro c hc
      rw [bullet_line_toList] at hc
      have hsplit2 : ('•' :: ' ' :: p.toList) = ['•', ' '] ++ p.toList := rfl
      rw [hsplit2, List.getLast?_append_of_ne_nil _ hne] at hc
      exact hl c hc
  have h2 : ("• " ++ p) ≠ "" :=
    ne_empty_of_toList_cons _ '•' (' ' :: p.toList) (bullet_line_toList p)
  have h3 : pyStarts ("• " ++ p) "•" = true := by
    unfold pyStarts
    rw [bullet_line_toList]
    simp [List.isPrefixOf]
  have h4 : pyLstrip '•' ("• " ++ p) = String.mk (' ' :: p.toList) := by
    unfold pyLstrip
    rw [bullet_line_toList]
    have e1 : ('•' == '•') = true := rfl
    have e2 : (' ' == '•') = false := by decide
    simp [List.dropWhile, e1, e2]
  have h5 : pyStrip (String.mk (' ' :: p.toList)) = p := by
    show String.mk (stripList (' ' :: p.toList)) = p
    rw [stripList_ws_cons ' ' (by decide) p.toList hh hl]
    exact mk_toList p
  have h6 : pyStarts p "*" = false := isPrefixOf_single_false '*' p.toList hstar
  have h7 : pyEnds p "*" = false :=
    isPrefixOf_single_false '*' p.toList.reverse (by simpa [List.mem_reverse] using hstar)
  have h8 : p ≠ "" := fun hep => hne (by rw [hep]; rfl)
  simp only [h1, h2, h3, h4, h5, h6, h7, h8]
  simp [h2, h3, h8, h6, h7]

/-- Splitting the rendered bullet text on newlines recovers the rendered
lines. -/
theorem pySplitChar_bullets (kps : List String)
    (h : ∀ p ∈ kps, cleanText p = true) (hne : kps ≠ []) :
    pySplitChar '\n' (pyJoin "\n" (kps.map (fun p => "• " ++ p))) =
      kps.map (fun p => "• " ++ p) := by
  unfold pySplitChar pyJoin
  have hsoc : splitOnChar '\n'
      (String.mk (joinSep "\n".toList ((kps.map (fun p => "• " ++ p)).map String.toList))).toList =
      (kps.map (fun p => "• " ++ p)).map String.toList := by
    have : "\n".toList = ['\n'] := rfl
    rw [this]
    show splitOnChar '\n' (joinSep ['\n'] _) = _
    refine splitOnChar_joinSep '\n' _ ?_ ?_
    · intro l hl
      simp only [List.map_map, List.mem_map, Function.comp] at hl
      obtain ⟨p, hp, rfl⟩ := hl
      rw [bullet_line_toList]
      obtain ⟨-, -, hnl, -, -, -⟩ := cleanText_spec p (h p hp)
      simp only [List.mem_cons]
      rintro (h1 | h1 | h1)
      · exact absurd h1 (by decide)
      · exact absurd h1 (by decide)
      · exact hnl h1
    · simp [hne]
  rw [hsoc, List.map_map]
  have : (String.mk ∘ String.toList) = id := funext fun s => mk_toList s
  rw [this, List.map_id]

/-- The key-points scrape of the rendered bullet text recovers the
points. -/
theorem parsePoints_clean (kps : List String)
    (h : ∀ p ∈ kps, cleanText p = true) (hne : kps ≠ []) :
    AgentWorkflow.parsePoints (pyJoin "\n" (kps.map (fun p => "• " ++ p))) = kps := by
  unfold AgentWorkflow.parsePoints
  rw [pySplitChar_bullets kps h hne]
  suffices hgen : ∀ (ks : List String), (∀ p ∈ ks, cleanText p = true) →
      ∀ (acc : List String),
      (ks.map (fun p => "• " ++ p)).foldl AgentWorkflow.scanBulletLine acc = acc ++ ks by
    simpa using hgen kps h []
  intro ks hks
  induction ks with
  | nil => intro acc; simp
  | cons p rest ih =>
    intro acc
    simp only [List.map_cons, List.foldl_cons]
    rw [bullet_line_step acc p (hks p (List.mem_cons_self p rest))]
    rw [ih (fun x hx => hks x (List.mem_cons_of_mem p hx)) (acc ++ [p])]
    simp

theorem stripList_company (nL : List Char) (hne : nL ≠ [])
    (hh : ∀ c, nL.head? = some c → c.isWhitespace = false)
    (hl : ∀ c, nL.getLast? = some c → c.isWhitespace = false) :
    stripList (' ' :: (nL ++ ['\n'])) = nL := by
  unfold stripList
  rw [List.dropWhile_cons_of_pos (by decide)]
  have hd : (nL ++ ['\n']).dropWhile Char.isWhitespace = nL ++ ['\n'] := by
    apply dropWhile_eq_self_of_head
    intro c hc
    rw [List.head?_append_of_ne_nil nL hne] at hc
    exact hh c hc
  rw [hd, List.reverse_append]
  show (List.dropWhile _ ('\n' :: nL.reverse)).reverse = nL
  rw [List.dropWhile_cons_of_pos (by decide)]
  rw [dropWhile_eq_self_of_head _ nL.reverse
    (fun c hc => hl c (by rwa [List.head?_reverse] at hc))]
  exact List.reverse_reverse nL

/-- Scraping the rendered summary section sets `summary` to the record's
summary and moves the cursor to the summary section. -/
theorem extractStep_summary (sd : StateData) (cur : Option ScrapeSection)
    (s : String) (hs : cleanText s = true) :
    AgentWorkflow.extractStep (sd, cur) (.sectionBlock ("*Summary:*\n" ++ s)) =
      ({ sd with summary := s }, some .summaryS) := by
  obtain ⟨hne, hstar, -, -, -, -⟩ := cleanText_spec s hs
  have hC : pyIn "*Company:*" ("*Summary:*\n" ++ s) = false :=
    pyIn_label_false "*Company:*" "Company:*".toList rfl "*Summary:*\n" s (by decide) hstar
  have hform : ("*Summary:*\n" ++ s) = "*Summary:*" ++ ("\n" ++ s) := by
    rw [show ("*Summary:*\n" : String) = "*Summary:*" ++ "\n" from rfl, str_append_assoc]
  have hS : pyIn "*Summary:*" ("*Summary:*\n" ++ s) = true := by
    rw [hform]
    exact pyIn_label_true "*Summary:*" ("\n" ++ s) '*' "Summary:*".toList rfl
  have hsplit : pySplitAfter ("*Summary:*\n" ++ s) "*Summary:*" = "\n" ++ s := by
    rw [hform]
    refine pySplitAfter_label "*Summary:*" ("\n" ++ s) '*' "Summary:*".toList rfl ?_
    rw [toList_append]
    simp only [List.mem_append]
    rintro (h1 | h1)
    · exact absurd h1 (by decide)
    · exact hstar h1
  have hstrip : pyStrip ("\n" ++ s) = s := pyStrip_nl_append s hs
  have hrep : pyReplace s "*" "" = s := pyReplace_star_clean s hstar
  have hstrip2 : pyStrip s = s := pyStrip_clean s hs
  unfold AgentWorkflow.extractStep
  simp only [hC, hS, hsplit, hstrip, hrep, hstrip2, Bool.false_eq_true, if_false, if_true]

/-- Scraping the rendered key-points section sets `key_points` to the
record's points and moves the cursor to the key-points section. -/
theorem extractStep_keypoints (sd : StateData) (cur : Option ScrapeSection)
    (kps : List String) (h : ∀ p ∈ kps, cleanText p = true) (hne : kps ≠ []) :
    AgentWorkflow.extractStep (sd, cur)
        (.sectionBlock ("*Key Points:*\n" ++ pyJoin "\n" (kps.map (fun p => "• " ++ p)))) =
      ({ sd with key_points := kps }, some .key_pointsS) := by
  have hstar : ('*' : Char) ∉ (pyJoin "\n" (kps.map (fun p => "• " ++ p))).toList :=
    kpText_no_star kps h
  have hC : pyIn "*Company:*"
      ("*Key Points:*\n" ++ pyJoin "\n" (kps.map (fun p => "• " ++ p))) = false :=
    pyIn_label_false "*Company:*" "Company:*".toList rfl "*Key Points:*\n" _ (by decide) hstar
  have hS : pyIn "*Summary:*"
      ("*Key Points:*\n" ++ pyJoin "\n" (kps.map (fun p => "• " ++ p))) = false :=
    pyIn_label_false "*Summary:*" "Summary:*".toList rfl "*Key Points:*\n" _ (by decide) hstar
  have hform : ("*Key Points:*\n" ++ pyJoin "\n" (kps.map (fun p => "• " ++ p))) =
      "*Key Points:*" ++ ("\n" ++ pyJoin "\n" (kps.map (fun p => "• " ++ p))) := by
    rw [show ("*Key Points:*\n" : String) = "*Key Points:*" ++ "\n" from rfl, str_append_assoc]
  have hK : pyIn "*Key Points:*"
      ("*Key Points:*\n" ++ pyJoin "\n" (kps.map (fun p => "• " ++ p))) = true := by
    rw [hform]
    exact pyIn_label_true "*Key Points:*" _ '*' "Key Points:*".toList rfl
  have hsplit : pySplitAfter
      ("*Key Points:*\n" ++ pyJoin "\n" (kps.map (fun p => "• " ++ p))) "*Key Points:*" =
      "\n" ++ pyJoin "\n" (kps.map (fun p => "• " ++ p)) := by
    rw [hform]
    refine pySplitAfter_label "*Key Points:*" _ '*' "Key Points:*".toList rfl ?_
    rw [toList_append]
    simp only [List.mem_append]
    rintro (h1 | h1)
    · exact absurd h1 (by decide)
    · exact hstar h1
  obtain ⟨hh, hl⟩ := kpText_ends kps h hne
  have hstrip : pyStrip ("\n" ++ pyJoin "\n" (kps.map (fun p => "• " ++ p))) =
      pyJoin "\n" (kps.map (fun p => "• " ++ p)) := by
    unfold pyStrip
    rw [toList_append]
    show String.mk (stripList ('\n' :: (pyJoin "\n" (kps.map (fun p => "• " ++ p))).toList)) = _
    rw [stripList_ws_cons '\n' (by decide) _ hh hl]
    exact mk_toList _
  have hparse := parsePoints_clean kps h hne
  unfold AgentWorkflow.extractStep
  simp only [hC, hS, hK, hsplit, hstrip, hparse, Bool.false_eq_true, if_false, if_true]

/-- Scraping the rendered company section sets `company_name` to the
record's company name and moves the cursor to the company section. -/
theorem extractStep_company (sd : StateData) (cur : Option ScrapeSection)
    (n : String) (hn : cleanText n = true) :
    AgentWorkflow.extractStep (sd, cur) (.sectionBlock ("*Company:* " ++ n ++ "\n")) =
      ({ sd with company_name := n }, some .company) := by
  obtain ⟨hne, hstar, hnl, -, hh, hl⟩ := cleanText_spec n hn
  have hform : ("*Company:* " ++ n ++ "\n") = "*Company:*" ++ (" " ++ (n ++ "\n")) := by
    rw [str_append_assoc]
    rw [show ("*Company:* " : String) = "*Company:*" ++ " " from rfl, str_append_assoc]
  have hC : pyIn "*Company:*" ("*Company:* " ++ n ++ "\n") = true := by
    rw [hform]
    exact pyIn_label_true "*Company:*" _ '*' "Company:*".toList rfl
  have hrest : ('*' : Char) ∉ (" " ++ (n ++ "\n")).toList := by
    rw [toList_append, toList_append]
    simp only [List.mem_append]
    rintro (h1 | h1 | h1)
    · exact absurd h1 (by decide)
    · exact hstar h1
    · exact absurd h1 (by decide)
  have hsplit : pySplitAfter ("*Company:* " ++ n ++ "\n") "*Company:*" =
      " " ++ (n ++ "\n") := by
    rw [hform]
    exact pySplitAfter_label "*Company:*" _ '*' "Company:*".toList rfl hrest
  have hstrip : pyStrip (" " ++ (n ++ "\n")) = n := by
    unfold pyStrip
    rw [toList_append, toList_append]
    show String.mk (stripList (' ' :: (n.toList ++ ['\n']))) = n
    rw [stripList_company n.toList hne hh hl]
    exact mk_toList n
  have hrep1 : pyReplace n "*" "" = n := pyReplace_star_clean n hstar
  have hrep2 : pyReplace n "\n" " " = n := pyReplace_nl_clean n hnl
  have hstrip2 : pyStrip n = n := pyStrip_clean n hn
  unfold AgentWorkflow.extractStep
  simp only [hC, hsplit, hstrip, hrep1, hrep2, hstrip2, if_true]

theorem extractStep_header (sd : StateData) (cur : Option ScrapeSection) (t : String) :
    AgentWorkflow.extractStep (sd, cur) (.header t) = (sd, cur) := rfl

/-- C4 amended: the claimed round-trip holds for the initial-notification
renderer (`SlackOutputHandler.send`), not for the formatter: for every
record whose summary, key points and (optional, name-only) company name
are non-empty, trimmed and free of markdown emphasis, newlines and
bullet characters, and which has no participants, rendering through
`send`'s block builder and recovering a flat record via the
message-state extractor yields the same `summary`, `key_points` and
`company_name` (`""` when no company).  Rendering through
`SlackFormatter.format_processing_result` instead loses `summary` and
`key_points`, as the counterexample shows. -/
theorem C4_roundtrip_via_initial_renderer (st : ProcessingState)
    (hsum : cleanText st.summary = true)
    (hkp : ∀ p ∈ st.key_points, cleanText p = true)
    (hkpne : st.key_points ≠ [])
    (hparts : st.participants = [])
    (hcomp : st.company_info = none ∨
      ∃ n, st.company_info = some { name := n } ∧ cleanText n = true) :
    (AgentWorkflow.extract_state_from_blocks (SlackOutputHandler.sendBlocks st)).summary
        = st.summary ∧
    (AgentWorkflow.extract_state_from_blocks (SlackOutputHandler.sendBlocks st)).key_points
        = st.key_points ∧
    (AgentWorkflow.extract_state_from_blocks (SlackOutputHandler.sendBlocks st)).company_name
        = (match st.company_info with | some c => c.name | none => "") := by
  rcases hcomp with hcomp | ⟨n, hcomp, hcn⟩
  · have hblocks : SlackOutputHandler.sendBlocks st =
        [Block.header "📝 Meeting Summary",
         Block.sectionBlock ("*Summary:*\n" ++ st.summary),
         Block.sectionBlock ("*Key Points:*\n" ++
           pyJoin "\n" (st.key_points.map (fun point => "• " ++ point)))] := by
      unfold SlackOutputHandler.sendBlocks
      simp [hkpne, hcomp, hparts]
    rw [hblocks]
    unfold AgentWorkflow.extract_state_from_blocks
    simp only [List.foldl_cons, List.foldl_nil]
    rw [extractStep_header, extractStep_summary _ _ _ hsum,
      extractStep_keypoints _ _ _ hkp hkpne]
    refine ⟨rfl, rfl, ?_⟩
    rw [hcomp]
  · have hblocks : SlackOutputHandler.sendBlocks st =
        [Block.header "📝 Meeting Summary",
         Block.sectionBlock ("*Summary:*\n" ++ st.summary),
         Block.sectionBlock ("*Key Points:*\n" ++
           pyJoin "\n" (st.key_points.map (fun point => "• " ++ point))),
         Block.sectionBlock ("*Company:* " ++ n ++ "\n")] := by
      unfold SlackOutputHandler.sendBlocks
      simp [hkpne, hcomp, hparts, pyTruthy]
    rw [hblocks]
    unfold AgentWorkflow.extract_state_from_blocks
    simp only [List.foldl_cons, List.foldl_nil]
    rw [extractStep_header, extractStep_summary _ _ _ hsum,
      extractStep_keypoints _ _ _ hkp hkpne, extractStep_company _ _ n hcn]
    refine ⟨rfl, rfl, ?_⟩
    rw [hcomp]

/-- A concrete clean record with a name-only company. -/
def st4C4 : ProcessingState :=
  { transcript := "We met Acme.", transcript_id := "id-4b",
    summary := "Acme pitched well",
    key_points := ["grew fast", "strong team"],
    company_info := some { name := "Acme Corp" } }

/-- Witness for the amended C4 at a concrete clean record with a name-only
company. -/
theorem C4_witness :
    (AgentWorkflow.extract_state_from_blocks (SlackOutputHandler.sendBlocks st4C4)).summary
        = st4C4.summary ∧
    (AgentWorkflow.extract_state_from_blocks (SlackOutputHandler.sendBlocks st4C4)).key_points
        = st4C4.key_points ∧
    (AgentWorkflow.extract_state_from_blocks (SlackOutputHandler.sendBlocks st4C4)).company_name
        = (match st4C4.company_info with | some c => c.name | none => "") :=
  C4_roundtrip_via_initial_renderer st4C4 (by decide) (by decide) (by decide) rfl
    (Or.inr ⟨"Acme Corp", rfl, by decide⟩)
